import Mathlib

/-!
# Windows signal handling of the Julia runtime (`src/signals-win.c`)

A shallow embedding of the fault dispatcher `jl_exception_handler`, the control-flow
redirection primitive `jl_throw_in_ctx`, the interrupt delivery `jl_try_deliver_sigint`,
one sampling step of the profiler thread `profile_bt`, and the profiler timer entry
points `jl_profile_start_timer` / `jl_profile_stop_timer`.

Conventions of the embedding:
* machine words are natural numbers, 64-bit arithmetic is taken modulo `2 ^ 64`;
* pointers are natural numbers with `0` for `NULL`, except exception objects, which are
  values of `jl_value_t`;
* calls into the operating system and into other files of the runtime are recorded in a
  trace of `Event`s; their fallible outcomes are inputs of the model;
* code that does not return (an `assert` that fails, `exit`, `abort`) ends the run with a
  `Result` other than `returned`.
-/

namespace SignalsWin

/-! ## Data model -/

/-- Modelled from the spec: the exception objects given to the redirection primitive are
declared outside `signals-win.c`. `NULL` and the four well-known exception objects are
pairwise distinct values; any other object is identified by its address. -/
inductive jl_value_t where
  | NULL
  | jl_diverror_exception
  | jl_stackovf_exception
  | jl_interrupt_exception
  | jl_readonlymemory_exception
  | object (addr : Nat)
deriving DecidableEq, Repr

/-- The part of the Windows `CONTEXT` record (x86-64) the file reads and writes. -/
structure CONTEXT where
  ContextFlags : Nat
  Rsp : Nat
  Rip : Nat
deriving DecidableEq, Repr

/-- The part of `EXCEPTION_RECORD` read by `jl_exception_handler`. -/
structure EXCEPTION_RECORD where
  ExceptionCode : Nat
  ExceptionFlags : Nat
  ExceptionAddress : Nat
  ExceptionInformation : Nat → Nat

/-- The fields of the thread-local state `jl_ptls_t` used by the file, together with the
safe-restore marker that `jl_get_safe_restore()` reads for the thread and the `gcstack`
of its current task. -/
structure jl_tls_states_t where
  tid : Nat
  defer_signal : Nat
  io_wait : Nat
  safe_restore : Nat
  needs_resetstkoflw : Nat
  bt_size : Nat
  bt_data : List Nat
  sig_exception : jl_value_t
  gcstack : Nat
  current_task : Nat
  sleep_check_state : Nat
deriving DecidableEq, Repr

/-- Diagnostics written with `jl_safe_printf` / `fputs`. -/
inductive Msg where
  | newline
  | bug_report_banner
  | exception_name (code : Nat)
  | at_address (addr : Nat)
  | force_throwing_sigint
  | suspend_failed
  | get_context_failed
  | set_context_failed
  | resume_failed
  | profile_suspend_failed
  | profile_get_context_failed
  | profile_resume_failed
  | timer_resolution_failed
  | resume_profiling_thread_failed
deriving DecidableEq, Repr

/-- Calls that leave the file, in the order they are made. -/
inductive Event where
  | fpreset
  | rec_backtrace_ctx (maxsize : Nat) (ctx : CONTEXT) (pgcstack : Nat)
  | lock_backtrace
  | unlock_backtrace
  | jl_swapcontext
  | jl_setcontext
  | jl_set_gc_and_wait
  | jl_safepoint_enable_sigint
  | jl_safepoint_consume_sigint
  | jl_safepoint_defer_sigint
  | jl_clear_force_sigint
  | jl_wake_libuv
  | jl_lock_profile
  | jl_unlock_profile
  | jl_safe_printf (m : Msg)
  | jl_show_sigill
  | jl_print_native_codeloc (addr : Nat)
  | jl_critical_error (sig : Nat)
  | c_exit (status : Nat)
  | jl_exit (status : Nat)
  | SuspendThread (h : Nat) (ok : Bool)
  | GetThreadContext (h : Nat) (ok : Bool)
  | SetThreadContext (h : Nat) (ok : Bool)
  | ResumeThread (h : Nat) (ok : Bool)
  | Sleep (ms : Nat)
  | lock_stackwalk
  | unlock_stackwalk
  | fputs (m : Msg)
  | jl_gc_debug_critical_error
  | abort
  | timeGetDevCaps (ok : Bool)
  | CreateThread (h : Nat)
  | SetThreadPriority (h : Nat)
  | timeBeginPeriod (period : Nat) (ok : Bool)
  | timeEndPeriod (period : Nat)
deriving DecidableEq, Repr

/-- How a run of a function ends. -/
inductive Result where
  | returned (value : Int)
  | exited (status : Nat)
  | aborted
deriving DecidableEq, Repr

/-- The functions and constants the file takes from the rest of the runtime:
the address of the throw trampoline, the handle of the main thread, the backtrace
recorder (the frames it records for a capacity, a register context and a `gcstack`), the
safepoint-address test and the capacity of a thread's backtrace buffer. -/
structure Env where
  jl_sig_throw : Nat
  hMainThread : Nat
  rec_backtrace_ctx : Nat → CONTEXT → Nat → List Nat
  jl_addr_is_safepoint : Nat → Bool
  JL_MAX_BT_SIZE : Nat

/-- The state the fault and interrupt paths act on: the thread-local state of the running
thread (`jl_current_task->ptls`), the file's statics, the byte-addressed memory holding
the stacks, the sigint flags of the safepoint state, and the trace. -/
structure State where
  ptls : jl_tls_states_t
  have_backtrace_fiber : Nat
  stkerror_ctx : CONTEXT
  mem : Nat → Nat
  sigint_requested : Bool
  sigint_deferred : Bool
  recursion : Nat
  trace : List Event

def EXCEPTION_ACCESS_VIOLATION : Nat := 0xC0000005
def EXCEPTION_ILLEGAL_INSTRUCTION : Nat := 0xC000001D
def EXCEPTION_INT_DIVIDE_BY_ZERO : Nat := 0xC0000094
def EXCEPTION_STACK_OVERFLOW : Nat := 0xC00000FD

def EXCEPTION_CONTINUE_EXECUTION : Int := -1
def EXCEPTION_CONTINUE_SEARCH : Int := 0

def CONTEXT_CONTROL : Nat := 0x100001
def CONTEXT_INTEGER : Nat := 0x100002

/-! ## Memory -/

/-- Byte `i` of the little-endian representation of `v`. -/
def byteOf (v i : Nat) : Nat := v / 256 ^ i % 256

/-- The store `*(DWORD64*)addr = v`: eight bytes, little-endian. -/
def store64 (mem : Nat → Nat) (addr v : Nat) : Nat → Nat :=
  fun a => if addr ≤ a ∧ a < addr + 8 then byteOf v (a - addr) else mem a

/-- The load `*(DWORD64*)addr`. -/
def load64 (mem : Nat → Nat) (addr : Nat) : Nat :=
  (List.range 8).foldr (fun i acc => mem (addr + i) + 256 * acc) 0

/-! ## Safepoint collaborators -/

/-- Modelled from the spec: `jl_safepoint_enable_sigint` marks an interrupt as requested. -/
def jl_safepoint_enable_sigint (s : State) : State :=
  { s with sigint_requested := true, trace := s.trace ++ [Event.jl_safepoint_enable_sigint] }

/-- Modelled from the spec: `jl_safepoint_consume_sigint` reports whether an interrupt is
requested and clears the request. -/
def jl_safepoint_consume_sigint (s : State) : Bool × State :=
  (s.sigint_requested,
   { s with sigint_requested := false, sigint_deferred := false,
            trace := s.trace ++ [Event.jl_safepoint_consume_sigint] })

/-- Modelled from the spec: `jl_safepoint_defer_sigint` leaves a requested interrupt
pending and marks it deferred. -/
def jl_safepoint_defer_sigint (s : State) : State :=
  { s with sigint_deferred := s.sigint_requested,
           trace := s.trace ++ [Event.jl_safepoint_defer_sigint] }

def emit (e : Event) (s : State) : State :=
  { s with trace := s.trace ++ [e] }

/-! ## `start_backtrace_fiber` and `jl_throw_in_ctx` -/

/-- The body of `start_backtrace_fiber`, entered by `jl_swapcontext` and left by
`jl_setcontext(&error_return_fiber)`; `stkerror_ptls` is the thread-local state of the
thread that switched in. -/
def start_backtrace_fiber (E : Env) (s : State) : State :=
  let bt := E.rec_backtrace_ctx E.JL_MAX_BT_SIZE s.stkerror_ctx 0
  { s with
    ptls := { s.ptls with bt_size := bt.length,
                          bt_data := bt ++ s.ptls.bt_data.drop bt.length }
    trace := s.trace ++ [Event.rec_backtrace_ctx E.JL_MAX_BT_SIZE s.stkerror_ctx 0,
                         Event.jl_setcontext] }

/-- The block of `jl_throw_in_ctx` guarded by `if (!jl_get_safe_restore())`;
`none` when `assert(excpt != NULL)` fails. -/
def record_exception (E : Env) (excpt : jl_value_t) (ctxThread : CONTEXT) (s : State) :
    Option State :=
  if s.ptls.safe_restore = 0 then
    if excpt = jl_value_t.NULL then none
    else
      let s1 := { s with ptls := { s.ptls with bt_size := 0 } }
      let s2 :=
        if excpt ≠ jl_value_t.jl_stackovf_exception then
          let bt := E.rec_backtrace_ctx E.JL_MAX_BT_SIZE ctxThread s1.ptls.gcstack
          { s1 with
            ptls := { s1.ptls with bt_size := bt.length,
                                   bt_data := bt ++ s1.ptls.bt_data.drop bt.length }
            trace := s1.trace ++
              [Event.rec_backtrace_ctx E.JL_MAX_BT_SIZE ctxThread s1.ptls.gcstack] }
        else if s1.have_backtrace_fiber ≠ 0 then
          let s3 := emit Event.lock_backtrace s1
          let s4 := emit Event.jl_swapcontext { s3 with stkerror_ctx := ctxThread }
          emit Event.unlock_backtrace (start_backtrace_fiber E s4)
        else s1
      some { s2 with ptls := { s2.ptls with sig_exception := excpt } }
  else some s

/-- The function `jl_throw_in_ctx(excpt, ctxThread)` for x86-64: the rewritten context and
the new state, or `none` when the assertion fails. -/
def jl_throw_in_ctx (E : Env) (excpt : jl_value_t) (ctxThread : CONTEXT) (s : State) :
    Option (CONTEXT × State) :=
  let Rsp := ((ctxThread.Rsp &&& (2 ^ 64 - 16)) + 2 ^ 64 - 8) % 2 ^ 64
  match record_exception E excpt ctxThread s with
  | none => none
  | some s1 =>
    some ({ ctxThread with Rsp := Rsp, Rip := E.jl_sig_throw },
          { s1 with mem := store64 s1.mem Rsp 0 })

/-! ## `jl_exception_handler` -/

/-- The statement pair `jl_throw_in_ctx(excpt, ContextRecord); return
EXCEPTION_CONTINUE_EXECUTION;`. -/
def throw_and_continue (E : Env) (excpt : jl_value_t) (ctx : CONTEXT) (s : State) :
    Result × CONTEXT × State :=
  match jl_throw_in_ctx E excpt ctx s with
  | none => (Result.aborted, ctx, s)
  | some (ctx1, s1) => (Result.returned EXCEPTION_CONTINUE_EXECUTION, ctx1, s1)

/-- The tail of `jl_exception_handler` reached when no case of the first `switch`
returned: the fault report followed by `exit(1)` or `jl_exit(1)`. -/
def fatal_report (er : EXCEPTION_RECORD) (ctx : CONTEXT) (s : State) :
    Result × CONTEXT × State :=
  let s1 :=
    if er.ExceptionCode = EXCEPTION_ILLEGAL_INSTRUCTION then
      emit Event.jl_show_sigill (emit (Event.jl_safe_printf Msg.newline) s)
    else s
  let s2 := emit (Event.jl_safe_printf Msg.bug_report_banner) s1
  let s3 := emit (Event.jl_safe_printf (Msg.exception_name er.ExceptionCode)) s2
  let s4 := emit (Event.jl_safe_printf (Msg.at_address er.ExceptionAddress)) s3
  let s5 := emit (Event.jl_print_native_codeloc er.ExceptionAddress) s4
  let s6 := emit (Event.jl_critical_error 0) s5
  let s7 := { s6 with recursion := s6.recursion + 1 }
  if s6.recursion ≠ 0 then
    (Result.exited 1, ctx, emit (Event.c_exit 1) s7)
  else
    (Result.exited 1, ctx, emit (Event.jl_exit 1) s7)

/-- The safepoint branch of the access-violation case. -/
def safepoint_trap (E : Env) (ctx : CONTEXT) (s : State) : Result × CONTEXT × State :=
  let s1 := emit Event.jl_set_gc_and_wait s
  if s1.ptls.tid ≠ 0 then
    (Result.returned EXCEPTION_CONTINUE_EXECUTION, ctx, s1)
  else if s1.ptls.defer_signal ≠ 0 then
    (Result.returned EXCEPTION_CONTINUE_EXECUTION, ctx, jl_safepoint_defer_sigint s1)
  else
    let (has_signal, s2) := jl_safepoint_consume_sigint s1
    if has_signal then
      match jl_throw_in_ctx E jl_value_t.jl_interrupt_exception ctx
          (emit Event.jl_clear_force_sigint s2) with
      | none => (Result.aborted, ctx, emit Event.jl_clear_force_sigint s2)
      | some (ctx1, s3) => (Result.returned EXCEPTION_CONTINUE_EXECUTION, ctx1, s3)
    else
      (Result.returned EXCEPTION_CONTINUE_EXECUTION, ctx, s2)

/-- The function `jl_exception_handler(ExceptionInfo)`: how it ends, the context record
it leaves and the new state. -/
def jl_exception_handler (E : Env) (er : EXCEPTION_RECORD) (ctx : CONTEXT) (s : State) :
    Result × CONTEXT × State :=
  if er.ExceptionFlags = 0 then
    if er.ExceptionCode = EXCEPTION_INT_DIVIDE_BY_ZERO then
      throw_and_continue E jl_value_t.jl_diverror_exception ctx (emit Event.fpreset s)
    else if er.ExceptionCode = EXCEPTION_STACK_OVERFLOW then
      throw_and_continue E jl_value_t.jl_stackovf_exception ctx
        { s with ptls := { s.ptls with needs_resetstkoflw := 1 } }
    else if er.ExceptionCode = EXCEPTION_ACCESS_VIOLATION then
      if E.jl_addr_is_safepoint (er.ExceptionInformation 1) then
        safepoint_trap E ctx s
      else if s.ptls.safe_restore ≠ 0 then
        throw_and_continue E jl_value_t.NULL ctx s
      else if er.ExceptionInformation 0 = 1 then
        throw_and_continue E jl_value_t.jl_readonlymemory_exception ctx s
      else fatal_report er ctx s
    else fatal_report er ctx s
  else
    (Result.returned EXCEPTION_CONTINUE_SEARCH, ctx, s)

/-! ## `jl_try_deliver_sigint` -/

/-- The main thread as the console-control callback thread sees it: its thread-local
state `jl_all_tls_states[0]`, the register context the operating system keeps for it,
and its suspend count. -/
structure MainThread where
  ptls2 : jl_tls_states_t
  ctx : CONTEXT
  suspend_count : Nat
deriving DecidableEq, Repr

/-- Outcomes of the fallible calls made by one run of `jl_try_deliver_sigint`; `force`
is the value of `jl_check_force_sigint()`. -/
structure DeliverOutcomes where
  SuspendThread_ok : Bool
  force : Bool
  GetThreadContext_ok : Bool
  SetThreadContext_ok : Bool
  ResumeThread_ok : Bool
deriving DecidableEq, Repr

/-- The final statement of `jl_try_deliver_sigint`: `ResumeThread(hMainThread)` with its
error message. -/
def deliver_resume (E : Env) (o : DeliverOutcomes) (m : MainThread) (s : State) :
    Result × MainThread × State :=
  if o.ResumeThread_ok then
    (Result.returned 0, { m with suspend_count := m.suspend_count - 1 },
      emit (Event.ResumeThread E.hMainThread true) s)
  else
    (Result.returned 0, m,
      emit (Event.jl_safe_printf Msg.resume_failed)
        (emit (Event.ResumeThread E.hMainThread false) s))

/-- The block of `jl_try_deliver_sigint` that throws in the main thread's context,
entered when `force || (!ptls2->defer_signal && ptls2->io_wait)`. -/
def deliver_throw (E : Env) (o : DeliverOutcomes) (m : MainThread) (s : State) :
    Result × MainThread × State :=
  let (_, s1) := jl_safepoint_consume_sigint s
  let s2 := if o.force then emit (Event.jl_safe_printf Msg.force_throwing_sigint) s1 else s1
  let s3 := emit Event.jl_clear_force_sigint s2
  if ¬ o.GetThreadContext_ok then
    (Result.returned 0, m,
      emit (Event.jl_safe_printf Msg.get_context_failed)
        (emit (Event.GetThreadContext E.hMainThread false) s3))
  else
    let ctxThread : CONTEXT :=
      { ContextFlags := CONTEXT_CONTROL ||| CONTEXT_INTEGER, Rsp := m.ctx.Rsp, Rip := m.ctx.Rip }
    let s4 := emit (Event.GetThreadContext E.hMainThread true) s3
    match jl_throw_in_ctx E jl_value_t.jl_interrupt_exception ctxThread s4 with
    | none => (Result.aborted, m, s4)
    | some (ctx1, s5) =>
      let ctx2 := { ctx1 with ContextFlags := CONTEXT_CONTROL ||| CONTEXT_INTEGER }
      if ¬ o.SetThreadContext_ok then
        (Result.returned 0, m,
          emit (Event.jl_safe_printf Msg.set_context_failed)
            (emit (Event.SetThreadContext E.hMainThread false) s5))
      else
        deliver_resume E o { m with ctx := { m.ctx with Rsp := ctx2.Rsp, Rip := ctx2.Rip } }
          (emit (Event.SetThreadContext E.hMainThread true) s5)

/-- The function `jl_try_deliver_sigint()`, run on the callback thread whose state is
`s`, against the main thread `m`. -/
def jl_try_deliver_sigint (E : Env) (o : DeliverOutcomes) (m : MainThread) (s : State) :
    Result × MainThread × State :=
  let s1 := emit Event.jl_wake_libuv (jl_safepoint_enable_sigint (emit Event.jl_lock_profile s))
  if ¬ o.SuspendThread_ok then
    (Result.returned 0, m,
      emit Event.jl_unlock_profile
        (emit (Event.jl_safe_printf Msg.suspend_failed)
          (emit (Event.SuspendThread E.hMainThread false) s1)))
  else
    let m1 := { m with suspend_count := m.suspend_count + 1 }
    let s2 := emit Event.jl_unlock_profile (emit (Event.SuspendThread E.hMainThread true) s1)
    if o.force ∨ (m1.ptls2.defer_signal = 0 ∧ m1.ptls2.io_wait ≠ 0) then
      deliver_throw E o m1 s2
    else
      deliver_resume E o m1 s2

/-! ## The profiler: timer entry points and one iteration of `profile_bt` -/

/-- The profiler's statics: the thread handle `hBtThread`, the flag `running`, the cached
`timecaps.wPeriodMin`, the sampling interval `nsecprof`, the sample buffer
`bt_data_prof` (as the list of its stores, index and value, oldest first) with its
fill level `bt_size_cur` and capacity `bt_size_max`, and the trace. -/
structure ProfilerState where
  hBtThread : Nat
  running : Nat
  timecaps_wPeriodMin : Nat
  nsecprof : Nat
  bt_size_cur : Nat
  bt_size_max : Nat
  bt_data_prof_stores : List (Nat × Nat)
  log : List Event
deriving DecidableEq, Repr

/-- Outcomes of the operating-system calls of one `jl_profile_start_timer`:
`timeGetDevCaps` gives the minimum period or fails, `CreateThread` gives a handle (`0`
for `NULL`), `timeBeginPeriod_ok` is the outcome of a request for a supported period. -/
structure StartOutcomes where
  timeGetDevCaps : Option Nat
  CreateThread : Nat
  ResumeThread_ok : Bool
  timeBeginPeriod_ok : Bool
deriving DecidableEq, Repr

def plog (e : Event) (p : ProfilerState) : ProfilerState :=
  { p with log := p.log ++ [e] }

/-- The Windows call `timeBeginPeriod(uPeriod)`, `true` for `TIMERR_NOERROR`: the period 0
is outside the range the timer device supports and is always refused
(`TIMERR_NOCANDO`); for every other period the outcome `granted` is an input. -/
def timeBeginPeriod (uPeriod : Nat) (granted : Bool) : Bool :=
  granted && decide (uPeriod ≠ 0)

/-- The end of `jl_profile_start_timer`, after the thread exists and runs: the timer
resolution request guarded by `running == 0`, then `running = 1; return 0`. -/
def start_timer_tail (o : StartOutcomes) (p : ProfilerState) : Int × ProfilerState :=
  let p1 :=
    if p.running = 0 then
      let ok := timeBeginPeriod p.timecaps_wPeriodMin o.timeBeginPeriod_ok
      let p2 := plog (Event.timeBeginPeriod p.timecaps_wPeriodMin ok) p
      if ¬ ok then { p2 with timecaps_wPeriodMin := 0 } else p2
    else p
  (0, { p1 with running := 1 })

/-- The function `jl_profile_start_timer()`: its return value and the new state. -/
def jl_profile_start_timer (o : StartOutcomes) (p : ProfilerState) : Int × ProfilerState :=
  if p.hBtThread = 0 then
    match o.timeGetDevCaps with
    | none =>
      (-2, plog (Event.fputs Msg.timer_resolution_failed) (plog (Event.timeGetDevCaps false) p))
    | some wPeriodMin =>
      let p1 : ProfilerState := { plog (Event.timeGetDevCaps true) p with timecaps_wPeriodMin := wPeriodMin }
      let p2 : ProfilerState := { plog (Event.CreateThread o.CreateThread) p1 with hBtThread := o.CreateThread }
      if p2.hBtThread = 0 then (-1, p2)
      else start_timer_tail o (plog (Event.SetThreadPriority p2.hBtThread) p2)
  else
    if ¬ o.ResumeThread_ok then
      (-2, plog (Event.fputs Msg.resume_profiling_thread_failed)
            (plog (Event.ResumeThread p.hBtThread false) p))
    else start_timer_tail o (plog (Event.ResumeThread p.hBtThread true) p)

/-- The function `jl_profile_stop_timer()`. -/
def jl_profile_stop_timer (p : ProfilerState) : ProfilerState :=
  let p1 :=
    if p.running ≠ 0 ∧ p.timecaps_wPeriodMin ≠ 0 then
      plog (Event.timeEndPeriod p.timecaps_wPeriodMin) p
    else p
  { p1 with running := 0 }

/-- The store `bt_data_prof[bt_size_cur++].uintptr = v` (`bt_size_cur` is a `size_t`). -/
def push_prof (v : Nat) (p : ProfilerState) : ProfilerState :=
  { p with bt_data_prof_stores := p.bt_data_prof_stores ++ [(p.bt_size_cur, v)],
           bt_size_cur := (p.bt_size_cur + 1) % 2 ^ 64 }

/-- The `else` branch of the `GetThreadContext` test in `profile_bt`: the recorder is
given the room `bt_size_max - bt_size_cur - 1` at `bt_data_prof + bt_size_cur`, then the
four metadata words and the two terminating zeros are stored. -/
def record_sample (E : Env) (ctxThread : CONTEXT) (ptls : jl_tls_states_t) (cycleclock : Nat)
    (p : ProfilerState) : ProfilerState :=
  let maxsize := (p.bt_size_max + 2 ^ 64 - p.bt_size_cur % 2 ^ 64 + 2 ^ 64 - 1) % 2 ^ 64
  let frames := E.rec_backtrace_ctx maxsize ctxThread 0
  let p1 : ProfilerState := { plog (Event.rec_backtrace_ctx maxsize ctxThread 0) p with
              bt_data_prof_stores := p.bt_data_prof_stores ++ frames.enumFrom p.bt_size_cur,
              bt_size_cur := (p.bt_size_cur + frames.length) % 2 ^ 64 }
  let p2 := push_prof (ptls.tid + 1) p1
  let p3 := push_prof ptls.current_task p2
  let p4 := push_prof cycleclock p3
  let p5 := push_prof (ptls.sleep_check_state + 1) p4
  push_prof 0 (push_prof 0 p5)

/-- Inputs of one iteration of the loop of `profile_bt`: the value of
`jl_profile_is_buffer_full()`, the outcomes of the thread calls, the context read from the
main thread, the thread-local state `jl_all_tls_states[0]` and the cycle counter. -/
structure SampleInputs where
  jl_profile_is_buffer_full : Bool
  SuspendThread_ok : Bool
  GetThreadContext_ok : Bool
  ctx : CONTEXT
  ptls : jl_tls_states_t
  cycleclock : Nat
  ResumeThread_ok : Bool
deriving DecidableEq, Repr

/-- How one iteration of the loop of `profile_bt` ends. -/
inductive LoopStep where
  | next
  | thread_returned
  | aborted
deriving DecidableEq, Repr

/-- One iteration of `while (1)` in `profile_bt`; a `break` runs the code after the loop. -/
def profile_bt_iteration (E : Env) (i : SampleInputs) (p : ProfilerState) :
    LoopStep × ProfilerState :=
  let timeout_ms := p.nsecprof / (1000000000 / 1000) % 2 ^ 32
  let p0 := plog (Event.Sleep (if timeout_ms > 0 then timeout_ms else 1)) p
  if p0.running ≠ 0 then
    if i.jl_profile_is_buffer_full then
      (LoopStep.next,
        plog (Event.SuspendThread (2 ^ 64 - 2) true) (jl_profile_stop_timer p0))
    else
      let p1 := plog Event.jl_lock_profile (plog Event.lock_stackwalk p0)
      if ¬ i.SuspendThread_ok then
        let p2 := plog (Event.fputs Msg.profile_suspend_failed)
          (plog (Event.SuspendThread E.hMainThread false) p1)
        let p3 := jl_profile_stop_timer
          (plog Event.unlock_stackwalk (plog Event.jl_unlock_profile p2))
        (LoopStep.thread_returned, { p3 with hBtThread := 0 })
      else
        let p2 := plog (Event.SuspendThread E.hMainThread true) p1
        let p3 :=
          if ¬ i.GetThreadContext_ok then
            jl_profile_stop_timer
              (plog (Event.fputs Msg.profile_get_context_failed)
                (plog (Event.GetThreadContext E.hMainThread false) p2))
          else
            record_sample E
              { ContextFlags := CONTEXT_CONTROL ||| CONTEXT_INTEGER,
                Rsp := i.ctx.Rsp, Rip := i.ctx.Rip }
              i.ptls i.cycleclock (plog (Event.GetThreadContext E.hMainThread true) p2)
        let p4 := plog Event.unlock_stackwalk (plog Event.jl_unlock_profile p3)
        if ¬ i.ResumeThread_ok then
          (LoopStep.aborted,
            plog Event.abort (plog Event.jl_gc_debug_critical_error
              (plog (Event.fputs Msg.profile_resume_failed)
                (jl_profile_stop_timer (plog (Event.ResumeThread E.hMainThread false) p4)))))
        else
          (LoopStep.next, plog (Event.ResumeThread E.hMainThread true) p4)
  else (LoopStep.next, p0)

/-- The statics as the file initialises them, with the given buffer. -/
def profiler_init (nsecprof bt_size_max : Nat) : ProfilerState :=
  { hBtThread := 0, running := 0, timecaps_wPeriodMin := 0, nsecprof := nsecprof,
    bt_size_cur := 0, bt_size_max := bt_size_max, bt_data_prof_stores := [], log := [] }

/-- The number of `ResumeThread` calls on the handle `h` in a trace. -/
def resume_calls (h : Nat) (l : List Event) : Nat :=
  l.countP (fun e => match e with | Event.ResumeThread k _ => decide (k = h) | _ => false)

/-- The number of fatal reports (`jl_critical_error` calls) in a trace. -/
def fatal_reports (l : List Event) : Nat :=
  l.countP (fun e => match e with | Event.jl_critical_error _ => true | _ => false)

/-- The number of successful `SetThreadContext` calls on the handle `h` in a trace. -/
def set_context_calls (h : Nat) (l : List Event) : Nat :=
  l.countP (fun e => match e with | Event.SetThreadContext k true => decide (k = h) | _ => false)

/-- The outcome "redirected to `excpt`" of a handler run `r` that called
`jl_throw_in_ctx(excpt, ctx)` in state `s` and returned `EXCEPTION_CONTINUE_EXECUTION`:
the call returned, `r` carries the context and state it produced, the instruction pointer
is the trampoline entry and no fatal report was written. -/
def redirected (E : Env) (excpt : jl_value_t) (ctx : CONTEXT) (s : State)
    (r : Result × CONTEXT × State) : Prop :=
  ∃ ctx1 s1, jl_throw_in_ctx E excpt ctx s = some (ctx1, s1) ∧
    r = (Result.returned EXCEPTION_CONTINUE_EXECUTION, ctx1, s1) ∧
    ctx1.Rip = E.jl_sig_throw ∧
    fatal_reports s1.trace = fatal_reports s.trace

/-- The outcome "fatal" of a handler run `r` started in state `s` with context `ctx`: one
fatal report was written, the context record was left alone and the process exited with
status 1 instead of returning. -/
def fatal_exit (ctx : CONTEXT) (s : State) (r : Result × CONTEXT × State) : Prop :=
  r.1 = Result.exited 1 ∧ r.2.1 = ctx ∧
  fatal_reports r.2.2.trace = fatal_reports s.trace + 1

/-- An environment whose recorder finds a stack of three frames. -/
def env_shallow : Env :=
  { jl_sig_throw := 0x7ff600001000, hMainThread := 0x1a4,
    rec_backtrace_ctx := fun maxsize ctx _ => (List.replicate 3 ctx.Rip).take maxsize,
    jl_addr_is_safepoint := fun a => a == 0x20000, JL_MAX_BT_SIZE := 80000 }

/-- An environment whose recorder finds a stack deeper than any room it is given. -/
def env_deep : Env :=
  { jl_sig_throw := 0x7ff600001000, hMainThread := 0x1a4,
    rec_backtrace_ctx := fun maxsize ctx _ => List.replicate maxsize ctx.Rip,
    jl_addr_is_safepoint := fun a => a == 0x20000, JL_MAX_BT_SIZE := 80000 }

def ctx_sample : CONTEXT := { ContextFlags := 0x10000b, Rsp := 0x5ffe38, Rip := 0x7ff600002345 }

def ptls_sample : jl_tls_states_t :=
  { tid := 0, defer_signal := 0, io_wait := 0, safe_restore := 0, needs_resetstkoflw := 0,
    bt_size := 0, bt_data := [], sig_exception := jl_value_t.NULL, gcstack := 0x4000,
    current_task := 0x5000, sleep_check_state := 0 }

def state_sample : State :=
  { ptls := ptls_sample, have_backtrace_fiber := 1, stkerror_ctx := ctx_sample,
    mem := fun _ => 0xcc, sigint_requested := false, sigint_deferred := false,
    recursion := 0, trace := [] }

/-- The sample state with the safe-restore marker set. -/
def state_safe_restore : State :=
  { state_sample with ptls := { ptls_sample with safe_restore := 0x6000 } }

/-- The sample state with an interrupt requested. -/
def state_sigint : State :=
  { state_sample with sigint_requested := true }

/-- The sample state with no secondary backtrace context installed. -/
def state_no_fiber : State :=
  { state_sample with have_backtrace_fiber := 0 }

/-- An access violation reading the safepoint page of `env_shallow`. -/
def fault_safepoint : EXCEPTION_RECORD :=
  { ExceptionCode := EXCEPTION_ACCESS_VIOLATION, ExceptionFlags := 0,
    ExceptionAddress := 0x7ff600002345,
    ExceptionInformation := fun i => if i = 1 then 0x20000 else 0 }

/-- A stack-overflow fault. -/
def fault_stack_overflow : EXCEPTION_RECORD :=
  { ExceptionCode := EXCEPTION_STACK_OVERFLOW, ExceptionFlags := 0,
    ExceptionAddress := 0x7ff600002345, ExceptionInformation := fun _ => 0 }

/-- An illegal-instruction fault. -/
def fault_illegal_instruction : EXCEPTION_RECORD :=
  { ExceptionCode := EXCEPTION_ILLEGAL_INSTRUCTION, ExceptionFlags := 0,
    ExceptionAddress := 0x7ff600002345, ExceptionInformation := fun _ => 0 }

/-- The main thread, running (not suspended), neither deferring signals nor waiting
for input or output. -/
def main_thread_sample : MainThread :=
  { ptls2 := ptls_sample, ctx := ctx_sample, suspend_count := 0 }

/-- The main thread blocked in an input/output wait. -/
def main_thread_io_wait : MainThread :=
  { ptls2 := { ptls_sample with io_wait := 1 }, ctx := ctx_sample, suspend_count := 0 }

/-- Every thread call succeeds, no force-escalation is pending. -/
def outcomes_all_ok : DeliverOutcomes :=
  { SuspendThread_ok := true, force := false, GetThreadContext_ok := true,
    SetThreadContext_ok := true, ResumeThread_ok := true }

/-- A forced delivery in which `GetThreadContext` fails. -/
def outcomes_get_context_fails : DeliverOutcomes :=
  { SuspendThread_ok := true, force := true, GetThreadContext_ok := false,
    SetThreadContext_ok := true, ResumeThread_ok := true }

/-- A forced delivery in which `SetThreadContext` fails. -/
def outcomes_set_context_fails : DeliverOutcomes :=
  { SuspendThread_ok := true, force := true, GetThreadContext_ok := true,
    SetThreadContext_ok := false, ResumeThread_ok := true }

/-- A first start in which `timeGetDevCaps` fails. -/
def start_caps_fail : StartOutcomes :=
  { timeGetDevCaps := none, CreateThread := 0x2b0, ResumeThread_ok := true,
    timeBeginPeriod_ok := true }

/-- A first start in which `CreateThread` returns `NULL`. -/
def start_create_fail : StartOutcomes :=
  { timeGetDevCaps := some 1, CreateThread := 0, ResumeThread_ok := true,
    timeBeginPeriod_ok := true }

/-- A later start in which `ResumeThread` fails. -/
def start_resume_fail : StartOutcomes :=
  { timeGetDevCaps := some 1, CreateThread := 0x2b0, ResumeThread_ok := false,
    timeBeginPeriod_ok := true }

/-- The profiler stopped, with its thread created by an earlier start. -/
def profiler_with_thread : ProfilerState :=
  { profiler_init 1000000 40 with hBtThread := 0x2b0, timecaps_wPeriodMin := 1 }

/-- The profiler running on an empty sample buffer of capacity 40. -/
def profiler_running : ProfilerState :=
  { profiler_init 1000000 40 with hBtThread := 0x2b0, timecaps_wPeriodMin := 1,
                                   running := 1 }

/-- A sampling step with the buffer not full in which every thread call succeeds. -/
def sample_inputs_ok : SampleInputs :=
  { jl_profile_is_buffer_full := false, SuspendThread_ok := true,
    GetThreadContext_ok := true, ctx := ctx_sample, ptls := ptls_sample,
    cycleclock := 0x1234, ResumeThread_ok := true }

theorem and_not_15 (x : Nat) (h : x < 2 ^ 64) : x &&& (2 ^ 64 - 16) = 2 ^ 4 * (x / 2 ^ 4) := by
  apply Nat.eq_of_testBit_eq
  intro i
  have hm : (2 ^ 64 - 16 : Nat) = 2 ^ 4 * (2 ^ 60 - 1) := by norm_num
  rw [Nat.testBit_and, hm, Nat.testBit_mul_pow_two, Nat.testBit_mul_pow_two,
    Nat.testBit_two_pow_sub_one, ← Nat.shiftRight_eq_div_pow, Nat.testBit_shiftRight]
  by_cases h4 : i ≥ 4
  · have e : 4 + (i - 4) = i := by omega
    rw [e]
    by_cases h64 : i < 64
    · have : i - 4 < 60 := by omega
      simp [h4, this]
    · have hx : x.testBit i = false := by
        apply Nat.testBit_lt_two_pow
        calc x < 2 ^ 64 := h
          _ ≤ 2 ^ i := Nat.pow_le_pow_right (by norm_num) (by omega)
      simp [hx]
  · simp [h4]

theorem aligned_minus_slot (x : Nat) (h : x < 2 ^ 64) (h16 : 16 ≤ x) :
    ((x &&& (2 ^ 64 - 16)) + 2 ^ 64 - 8) % 2 ^ 64 = (x &&& (2 ^ 64 - 16)) - 8 ∧
    (x &&& (2 ^ 64 - 16)) - 8 = x - x % 16 - 8 := by
  rw [and_not_15 x h]
  norm_num
  omega

theorem load64_store64_zero (mem : Nat → Nat) (a : Nat) : load64 (store64 mem a 0) a = 0 := by
  simp [load64, store64, byteOf, List.range, List.range.loop]

/-! ## Lemmas on `jl_throw_in_ctx` -/

theorem record_exception_of_safe_restore (E : Env) (excpt : jl_value_t) (ctx : CONTEXT)
    (s : State) (h : s.ptls.safe_restore ≠ 0) : record_exception E excpt ctx s = some s := by
  simp [record_exception, h]

theorem record_exception_of_ne_null (E : Env) (excpt : jl_value_t) (ctx : CONTEXT)
    (s : State) (h0 : s.ptls.safe_restore = 0) (h : excpt ≠ jl_value_t.NULL) :
    ∃ s1, record_exception E excpt ctx s = some s1 ∧ s1.ptls.sig_exception = excpt ∧
      s1.ptls.needs_resetstkoflw = s.ptls.needs_resetstkoflw ∧
      s1.sigint_requested = s.sigint_requested ∧
      fatal_reports s1.trace = fatal_reports s.trace := by
  simp only [record_exception, h0, h, if_true, if_false]
  refine ⟨_, rfl, ?_⟩
  by_cases hs : excpt = jl_value_t.jl_stackovf_exception
  · by_cases hf : s.have_backtrace_fiber = 0
    · simp [hs, hf]
    · simp [hs, hf, emit, start_backtrace_fiber, fatal_reports, List.countP_append]
  · simp [hs, fatal_reports, List.countP_append]

theorem jl_throw_in_ctx_some (E : Env) (excpt : jl_value_t) (ctx : CONTEXT) (s s1 : State)
    (h : record_exception E excpt ctx s = some s1) :
    jl_throw_in_ctx E excpt ctx s =
      some ({ ctx with Rsp := ((ctx.Rsp &&& (2 ^ 64 - 16)) + 2 ^ 64 - 8) % 2 ^ 64,
                       Rip := E.jl_sig_throw },
            { s1 with
              mem := store64 s1.mem (((ctx.Rsp &&& (2 ^ 64 - 16)) + 2 ^ 64 - 8) % 2 ^ 64) 0 }) := by
  simp [jl_throw_in_ctx, h]

theorem jl_throw_in_ctx_spec (E : Env) (excpt : jl_value_t) (ctx : CONTEXT) (s s0 : State)
    (h : record_exception E excpt ctx s = some s0) :
    ∃ ctx1 s1, jl_throw_in_ctx E excpt ctx s = some (ctx1, s1) ∧
      ctx1.Rip = E.jl_sig_throw ∧
      ctx1.Rsp = ((ctx.Rsp &&& (2 ^ 64 - 16)) + 2 ^ 64 - 8) % 2 ^ 64 ∧
      load64 s1.mem ctx1.Rsp = 0 ∧
      s1.ptls = s0.ptls ∧ s1.trace = s0.trace ∧
      s1.sigint_requested = s0.sigint_requested ∧
      s1.have_backtrace_fiber = s0.have_backtrace_fiber := by
  refine ⟨_, _, jl_throw_in_ctx_some E excpt ctx s s0 h, rfl, rfl, ?_, rfl, rfl, rfl, rfl⟩
  dsimp only
  exact load64_store64_zero s0.mem _

/-! ## Lemmas on `jl_exception_handler` -/

theorem throw_and_continue_of_some (E : Env) (excpt : jl_value_t) (ctx ctx1 : CONTEXT)
    (s s1 : State) (h : jl_throw_in_ctx E excpt ctx s = some (ctx1, s1)) :
    throw_and_continue E excpt ctx s =
      (Result.returned EXCEPTION_CONTINUE_EXECUTION, ctx1, s1) := by
  simp only [throw_and_continue, h]

theorem fault_codes_distinct :
    EXCEPTION_STACK_OVERFLOW ≠ EXCEPTION_INT_DIVIDE_BY_ZERO ∧
    EXCEPTION_ACCESS_VIOLATION ≠ EXCEPTION_INT_DIVIDE_BY_ZERO ∧
    EXCEPTION_ACCESS_VIOLATION ≠ EXCEPTION_STACK_OVERFLOW := by
  decide

theorem handler_divide (E : Env) (er : EXCEPTION_RECORD) (ctx : CONTEXT) (s : State)
    (hf : er.ExceptionFlags = 0) (hc : er.ExceptionCode = EXCEPTION_INT_DIVIDE_BY_ZERO) :
    jl_exception_handler E er ctx s =
      throw_and_continue E jl_value_t.jl_diverror_exception ctx (emit Event.fpreset s) := by
  unfold jl_exception_handler
  rw [if_pos hf, if_pos hc]

theorem handler_stack_overflow (E : Env) (er : EXCEPTION_RECORD) (ctx : CONTEXT) (s : State)
    (hf : er.ExceptionFlags = 0) (hc : er.ExceptionCode = EXCEPTION_STACK_OVERFLOW) :
    jl_exception_handler E er ctx s =
      throw_and_continue E jl_value_t.jl_stackovf_exception ctx
        { s with ptls := { s.ptls with needs_resetstkoflw := 1 } } := by
  have h1 : ¬ er.ExceptionCode = EXCEPTION_INT_DIVIDE_BY_ZERO := by
    rw [hc]; exact fault_codes_distinct.1
  unfold jl_exception_handler
  rw [if_pos hf, if_neg h1, if_pos hc]

theorem handler_access_violation (E : Env) (er : EXCEPTION_RECORD) (ctx : CONTEXT) (s : State)
    (hf : er.ExceptionFlags = 0) (hc : er.ExceptionCode = EXCEPTION_ACCESS_VIOLATION) :
    jl_exception_handler E er ctx s =
      if E.jl_addr_is_safepoint (er.ExceptionInformation 1) then
        safepoint_trap E ctx s
      else if s.ptls.safe_restore ≠ 0 then
        throw_and_continue E jl_value_t.NULL ctx s
      else if er.ExceptionInformation 0 = 1 then
        throw_and_continue E jl_value_t.jl_readonlymemory_exception ctx s
      else fatal_report er ctx s := by
  have h1 : ¬ er.ExceptionCode = EXCEPTION_INT_DIVIDE_BY_ZERO := by
    rw [hc]; exact fault_codes_distinct.2.1
  have h2 : ¬ er.ExceptionCode = EXCEPTION_STACK_OVERFLOW := by
    rw [hc]; exact fault_codes_distinct.2.2
  unfold jl_exception_handler
  rw [if_pos hf, if_neg h1, if_neg h2, if_pos hc]

theorem handler_other_code (E : Env) (er : EXCEPTION_RECORD) (ctx : CONTEXT) (s : State)
    (hf : er.ExceptionFlags = 0) (h1 : er.ExceptionCode ≠ EXCEPTION_INT_DIVIDE_BY_ZERO)
    (h2 : er.ExceptionCode ≠ EXCEPTION_STACK_OVERFLOW)
    (h3 : er.ExceptionCode ≠ EXCEPTION_ACCESS_VIOLATION) :
    jl_exception_handler E er ctx s = fatal_report er ctx s := by
  unfold jl_exception_handler
  rw [if_pos hf, if_neg h1, if_neg h2, if_neg h3]

theorem handler_flags (E : Env) (er : EXCEPTION_RECORD) (ctx : CONTEXT) (s : State)
    (hf : er.ExceptionFlags ≠ 0) :
    jl_exception_handler E er ctx s = (Result.returned EXCEPTION_CONTINUE_SEARCH, ctx, s) := by
  unfold jl_exception_handler
  rw [if_neg hf]

theorem fatal_report_spec (er : EXCEPTION_RECORD) (ctx : CONTEXT) (s : State) :
    (fatal_report er ctx s).1 = Result.exited 1 ∧
    (fatal_report er ctx s).2.1 = ctx ∧
    fatal_reports (fatal_report er ctx s).2.2.trace = fatal_reports s.trace + 1 ∧
    (fatal_report er ctx s).2.2.ptls = s.ptls := by
  unfold fatal_report
  by_cases hi : er.ExceptionCode = EXCEPTION_ILLEGAL_INSTRUCTION <;>
  by_cases hr : s.recursion = 0 <;>
  simp [hi, hr, emit, fatal_reports, List.countP_append]

/-! ## C1: the rewritten stack pointer -/

/-- C1 (as amended): for every register context with `16 ≤ Rsp < 2 ^ 64` and every
exception value and state of the safe-restore marker that pass the function's assertion
(the value is not `NULL`, or the marker is set), `jl_throw_in_ctx` returns, the new stack
pointer is `(Rsp AND NOT 15) - 8`, it is strictly below the old one and congruent to 8
modulo 16, the 8-byte word stored at it is zero, and the instruction pointer is the
entry of `jl_sig_throw`. -/
theorem jl_throw_in_ctx_stack_pointer (E : Env) (excpt : jl_value_t) (ctx : CONTEXT)
    (s : State) (hw : ctx.Rsp < 2 ^ 64) (h16 : 16 ≤ ctx.Rsp)
    (hassert : excpt ≠ jl_value_t.NULL ∨ s.ptls.safe_restore ≠ 0) :
    ∃ ctx1 s1, jl_throw_in_ctx E excpt ctx s = some (ctx1, s1) ∧
      ctx1.Rsp = (ctx.Rsp &&& (2 ^ 64 - 16)) - 8 ∧
      ctx1.Rsp = ctx.Rsp - ctx.Rsp % 16 - 8 ∧
      ctx1.Rsp < ctx.Rsp ∧
      ctx1.Rsp % 16 = 8 ∧
      load64 s1.mem ctx1.Rsp = 0 ∧
      ctx1.Rip = E.jl_sig_throw := by
  obtain ⟨ha, hb⟩ := aligned_minus_slot ctx.Rsp hw h16
  have hrec : ∃ s0, record_exception E excpt ctx s = some s0 := by
    by_cases h0 : s.ptls.safe_restore = 0
    · rcases hassert with hne | hsr
      · obtain ⟨s0, hs0, _⟩ := record_exception_of_ne_null E excpt ctx s h0 hne
        exact ⟨s0, hs0⟩
      · exact absurd h0 hsr
    · exact ⟨s, record_exception_of_safe_restore E excpt ctx s h0⟩
  obtain ⟨s0, hs0⟩ := hrec
  refine ⟨_, _, jl_throw_in_ctx_some E excpt ctx s s0 hs0, ?_, ?_, ?_, ?_, ?_, rfl⟩
  · exact ha
  · exact ha.trans hb
  · show ((ctx.Rsp &&& (2 ^ 64 - 16)) + 2 ^ 64 - 8) % 2 ^ 64 < ctx.Rsp
    rw [ha, hb]; omega
  · show ((ctx.Rsp &&& (2 ^ 64 - 16)) + 2 ^ 64 - 8) % 2 ^ 64 % 16 = 8
    rw [ha, hb]; omega
  · dsimp only
    exact load64_store64_zero s0.mem _

/-- C1, witness: the divide-error exception thrown in the sample context. -/
theorem jl_throw_in_ctx_stack_pointer_witness :
    ∃ ctx1 s1, jl_throw_in_ctx env_shallow jl_value_t.jl_diverror_exception ctx_sample
        state_sample = some (ctx1, s1) ∧
      ctx1.Rsp = (ctx_sample.Rsp &&& (2 ^ 64 - 16)) - 8 ∧
      ctx1.Rsp = ctx_sample.Rsp - ctx_sample.Rsp % 16 - 8 ∧
      ctx1.Rsp < ctx_sample.Rsp ∧
      ctx1.Rsp % 16 = 8 ∧
      load64 s1.mem ctx1.Rsp = 0 ∧
      ctx1.Rip = env_shallow.jl_sig_throw :=
  jl_throw_in_ctx_stack_pointer env_shallow jl_value_t.jl_diverror_exception ctx_sample
    state_sample (by decide) (by decide) (Or.inl (by decide))

/-- C1, counterexample: with `Rsp = 0x5ffe38`, a `NULL` exception value and no
safe-restore marker, `assert(excpt != NULL)` fails and no context is produced. -/
theorem jl_throw_in_ctx_null_without_marker :
    16 ≤ ctx_sample.Rsp ∧ ctx_sample.Rsp < 2 ^ 64 ∧ state_sample.ptls.safe_restore = 0 ∧
    ¬ ∃ ctx1 s1, jl_throw_in_ctx env_shallow jl_value_t.NULL ctx_sample state_sample
        = some (ctx1, s1) := by
  refine ⟨by decide, by decide, rfl, ?_⟩
  rintro ⟨ctx1, s1, h⟩
  simp [jl_throw_in_ctx, record_exception, state_sample, ptls_sample] at h

/-! ## C3: the pending exception and the instruction pointer -/

/-- C3 (as amended): for every register context and every non-null exception value,
`jl_throw_in_ctx` run without a safe-restore marker leaves the exception in the pending
slot `ptls->sig_exception` and the entry of `jl_sig_throw` in the instruction pointer;
run with the marker set it still redirects the instruction pointer but leaves the pending
slot as it was. In particular a divide-by-zero fault taken without the marker ends with
the divide-error value pending and the instruction pointer at the trampoline. -/
theorem jl_throw_in_ctx_pending_exception (E : Env) (excpt : jl_value_t) (ctx : CONTEXT)
    (s : State) (hne : excpt ≠ jl_value_t.NULL) :
    (s.ptls.safe_restore = 0 →
      (∃ ctx1 s1, jl_throw_in_ctx E excpt ctx s = some (ctx1, s1) ∧
        s1.ptls.sig_exception = excpt ∧ ctx1.Rip = E.jl_sig_throw) ∧
      (∀ er : EXCEPTION_RECORD, er.ExceptionFlags = 0 →
        er.ExceptionCode = EXCEPTION_INT_DIVIDE_BY_ZERO →
        (jl_exception_handler E er ctx s).1 = Result.returned EXCEPTION_CONTINUE_EXECUTION ∧
        (jl_exception_handler E er ctx s).2.2.ptls.sig_exception
          = jl_value_t.jl_diverror_exception ∧
        (jl_exception_handler E er ctx s).2.1.Rip = E.jl_sig_throw)) ∧
    (s.ptls.safe_restore ≠ 0 →
      ∃ ctx1 s1, jl_throw_in_ctx E excpt ctx s = some (ctx1, s1) ∧
        s1.ptls.sig_exception = s.ptls.sig_exception ∧ ctx1.Rip = E.jl_sig_throw) := by
  refine ⟨fun h0 => ⟨?_, ?_⟩, fun hsr => ?_⟩
  · obtain ⟨s0, hs0, hexc, _⟩ := record_exception_of_ne_null E excpt ctx s h0 hne
    obtain ⟨ctx1, s1, ht, hrip, _, _, hptls, _⟩ := jl_throw_in_ctx_spec E _ ctx _ s0 hs0
    exact ⟨ctx1, s1, ht, by rw [hptls, hexc], hrip⟩
  · intro er hflags hcode
    obtain ⟨s0, hs0, hexc, _⟩ := record_exception_of_ne_null E
      jl_value_t.jl_diverror_exception ctx (emit Event.fpreset s) h0 (by decide)
    obtain ⟨ctx1, s1, ht, hrip, _, _, hptls, _⟩ := jl_throw_in_ctx_spec E _ ctx _ s0 hs0
    rw [handler_divide E er ctx s hflags hcode, throw_and_continue_of_some E _ ctx _ _ _ ht]
    refine ⟨rfl, ?_, hrip⟩
    show s1.ptls.sig_exception = _
    rw [hptls, hexc]
  · obtain ⟨ctx1, s1, ht, hrip, _, _, hptls, _⟩ := jl_throw_in_ctx_spec E excpt ctx s s
      (record_exception_of_safe_restore E excpt ctx s hsr)
    exact ⟨ctx1, s1, ht, by rw [hptls], hrip⟩

/-- C3, witness: the divide-error exception in the sample context and state. -/
theorem jl_throw_in_ctx_pending_exception_witness :
    ∃ ctx1 s1, jl_throw_in_ctx env_shallow jl_value_t.jl_diverror_exception ctx_sample
        state_sample = some (ctx1, s1) ∧
      s1.ptls.sig_exception = jl_value_t.jl_diverror_exception ∧
      ctx1.Rip = env_shallow.jl_sig_throw :=
  ((jl_throw_in_ctx_pending_exception env_shallow jl_value_t.jl_diverror_exception ctx_sample
    state_sample (by decide)).1 rfl).1

/-- C3, counterexample: a divide-by-zero fault taken while the safe-restore marker is
set. The dispatcher selects the divide-error value, and after `jl_throw_in_ctx` the
pending slot still holds its old value `NULL`, not the divide-error value. -/
theorem jl_throw_in_ctx_marker_keeps_pending :
    state_safe_restore.ptls.sig_exception = jl_value_t.NULL ∧
    (∃ ctx1 s1, jl_throw_in_ctx env_shallow jl_value_t.jl_diverror_exception ctx_sample
        state_safe_restore = some (ctx1, s1) ∧
      s1.ptls.sig_exception ≠ jl_value_t.jl_diverror_exception) ∧
    (jl_exception_handler env_shallow
        { ExceptionCode := EXCEPTION_INT_DIVIDE_BY_ZERO, ExceptionFlags := 0,
          ExceptionAddress := 0x7ff600002345, ExceptionInformation := fun _ => 0 }
        ctx_sample state_safe_restore).2.2.ptls.sig_exception
        ≠ jl_value_t.jl_diverror_exception := by
  have hm : state_safe_restore.ptls.safe_restore ≠ 0 := by decide
  refine ⟨rfl, ?_, ?_⟩
  · obtain ⟨ctx1, s1, ht, _, _, _, hptls, _⟩ := jl_throw_in_ctx_spec env_shallow
      jl_value_t.jl_diverror_exception ctx_sample state_safe_restore state_safe_restore
      (record_exception_of_safe_restore _ _ _ _ hm)
    refine ⟨ctx1, s1, ht, ?_⟩
    rw [hptls]; decide
  · obtain ⟨ctx1, s1, ht, _, _, _, hptls, _⟩ := jl_throw_in_ctx_spec env_shallow
      jl_value_t.jl_diverror_exception ctx_sample (emit Event.fpreset state_safe_restore)
      (emit Event.fpreset state_safe_restore) (record_exception_of_safe_restore _ _ _ _ hm)
    rw [handler_divide _ _ _ _ rfl rfl, throw_and_continue_of_some _ _ _ _ _ _ ht]
    show s1.ptls.sig_exception ≠ _
    rw [hptls]; decide

/-! ## C9: stack overflow -/

theorem record_exception_stackovf (E : Env) (ctx : CONTEXT) (s : State)
    (h0 : s.ptls.safe_restore = 0) :
    ∃ s0, record_exception E jl_value_t.jl_stackovf_exception ctx s = some s0 ∧
      s0.ptls.sig_exception = jl_value_t.jl_stackovf_exception ∧
      s0.ptls.needs_resetstkoflw = s.ptls.needs_resetstkoflw ∧
      (s.have_backtrace_fiber ≠ 0 →
        s0.ptls.bt_size = (E.rec_backtrace_ctx E.JL_MAX_BT_SIZE ctx 0).length ∧
        s0.ptls.bt_data = E.rec_backtrace_ctx E.JL_MAX_BT_SIZE ctx 0 ++
          s.ptls.bt_data.drop (E.rec_backtrace_ctx E.JL_MAX_BT_SIZE ctx 0).length ∧
        s0.trace = s.trace ++ [Event.lock_backtrace, Event.jl_swapcontext,
          Event.rec_backtrace_ctx E.JL_MAX_BT_SIZE ctx 0, Event.jl_setcontext,
          Event.unlock_backtrace]) ∧
      (s.have_backtrace_fiber = 0 → s0.ptls.bt_size = 0 ∧ s0.trace = s.trace) := by
  by_cases hf : s.have_backtrace_fiber = 0
  · refine ⟨_, by simp only [record_exception, h0, hf]; rfl, ?_⟩
    simp [hf]
  · refine ⟨_, by simp only [record_exception, h0, hf]; rfl, ?_⟩
    simp [hf, emit, start_backtrace_fiber]

/-- C9: a stack-overflow fault (`ExceptionFlags == 0`, no safe-restore marker) sets
`needs_resetstkoflw`, makes the stack-overflow exception pending, redirects to the
trampoline and returns `EXCEPTION_CONTINUE_EXECUTION`. With a secondary backtrace
context installed the only recorder call is the one made on the fiber, between
`jl_swapcontext` and `jl_setcontext`, walking the faulting context, and `bt_size` is its
result; with none installed no recorder is called and `bt_size` is 0. -/
theorem stack_overflow_fault (E : Env) (er : EXCEPTION_RECORD) (ctx : CONTEXT) (s : State)
    (hf : er.ExceptionFlags = 0) (hc : er.ExceptionCode = EXCEPTION_STACK_OVERFLOW)
    (h0 : s.ptls.safe_restore = 0) :
    (jl_exception_handler E er ctx s).1 = Result.returned EXCEPTION_CONTINUE_EXECUTION ∧
    (jl_exception_handler E er ctx s).2.2.ptls.needs_resetstkoflw = 1 ∧
    (jl_exception_handler E er ctx s).2.2.ptls.sig_exception
      = jl_value_t.jl_stackovf_exception ∧
    (jl_exception_handler E er ctx s).2.1.Rip = E.jl_sig_throw ∧
    (s.have_backtrace_fiber ≠ 0 →
      (jl_exception_handler E er ctx s).2.2.ptls.bt_size
        = (E.rec_backtrace_ctx E.JL_MAX_BT_SIZE ctx 0).length ∧
      (jl_exception_handler E er ctx s).2.2.ptls.bt_data
        = E.rec_backtrace_ctx E.JL_MAX_BT_SIZE ctx 0 ++
          s.ptls.bt_data.drop (E.rec_backtrace_ctx E.JL_MAX_BT_SIZE ctx 0).length ∧
      (jl_exception_handler E er ctx s).2.2.trace
        = s.trace ++ [Event.lock_backtrace, Event.jl_swapcontext,
            Event.rec_backtrace_ctx E.JL_MAX_BT_SIZE ctx 0, Event.jl_setcontext,
            Event.unlock_backtrace]) ∧
    (s.have_backtrace_fiber = 0 →
      (jl_exception_handler E er ctx s).2.2.ptls.bt_size = 0 ∧
      (jl_exception_handler E er ctx s).2.2.trace = s.trace) := by
  obtain ⟨s0, hs0, hexc, hreset, hfib, hnofib⟩ := record_exception_stackovf E ctx
    { s with ptls := { s.ptls with needs_resetstkoflw := 1 } } h0
  obtain ⟨ctx1, s1, ht, hrip, _, _, hptls, htrace, _⟩ := jl_throw_in_ctx_spec E _ ctx _ s0 hs0
  rw [handler_stack_overflow E er ctx s hf hc, throw_and_continue_of_some E _ ctx _ _ _ ht]
  refine ⟨rfl, ?_, ?_, hrip, ?_, ?_⟩
  · show s1.ptls.needs_resetstkoflw = 1
    rw [hptls, hreset]
  · show s1.ptls.sig_exception = _
    rw [hptls, hexc]
  · intro hne
    obtain ⟨h1, h2, h3⟩ := hfib hne
    refine ⟨?_, ?_, ?_⟩
    · show s1.ptls.bt_size = _
      rw [hptls, h1]
    · show s1.ptls.bt_data = _
      rw [hptls, h2]
    · show s1.trace = _
      rw [htrace, h3]
  · intro he
    obtain ⟨h1, h2⟩ := hnofib he
    refine ⟨?_, ?_⟩
    · show s1.ptls.bt_size = _
      rw [hptls, h1]
    · show s1.trace = _
      rw [htrace, h2]

/-- C9, witness: the stack-overflow fault in the sample state, fiber installed. -/
theorem stack_overflow_fault_witness :
    (jl_exception_handler env_shallow fault_stack_overflow ctx_sample state_sample).1
      = Result.returned EXCEPTION_CONTINUE_EXECUTION ∧
    (jl_exception_handler env_shallow fault_stack_overflow ctx_sample
      state_sample).2.2.ptls.needs_resetstkoflw = 1 ∧
    (jl_exception_handler env_shallow fault_stack_overflow ctx_sample
      state_sample).2.2.ptls.sig_exception = jl_value_t.jl_stackovf_exception ∧
    (jl_exception_handler env_shallow fault_stack_overflow ctx_sample
      state_no_fiber).2.2.ptls.bt_size = 0 :=
  ⟨(stack_overflow_fault env_shallow fault_stack_overflow ctx_sample state_sample
      rfl rfl rfl).1,
   (stack_overflow_fault env_shallow fault_stack_overflow ctx_sample state_sample
      rfl rfl rfl).2.1,
   (stack_overflow_fault env_shallow fault_stack_overflow ctx_sample state_sample
      rfl rfl rfl).2.2.1,
   ((stack_overflow_fault env_shallow fault_stack_overflow ctx_sample state_no_fiber
      rfl rfl rfl).2.2.2.2.2 rfl).1⟩

/-! ## C10: the safepoint trap -/

theorem record_exception_interrupt (E : Env) (ctx : CONTEXT) (s : State) :
    ∃ s0, record_exception E jl_value_t.jl_interrupt_exception ctx s = some s0 ∧
      fatal_reports s0.trace = fatal_reports s.trace ∧
      (s.ptls.safe_restore = 0 →
        s0.ptls.sig_exception = jl_value_t.jl_interrupt_exception) := by
  by_cases h0 : s.ptls.safe_restore = 0
  · obtain ⟨s0, hs0, hexc, _, _, hrep⟩ := record_exception_of_ne_null E
      jl_value_t.jl_interrupt_exception ctx s h0 (by decide)
    exact ⟨s0, hs0, hrep, fun _ => hexc⟩
  · exact ⟨s, record_exception_of_safe_restore E _ ctx s h0, rfl, fun h => absurd h h0⟩

theorem safepoint_trap_quiet (E : Env) (ctx : CONTEXT) (s : State)
    (h : s.ptls.tid ≠ 0 ∨ s.ptls.defer_signal ≠ 0 ∨ s.sigint_requested = false) :
    (safepoint_trap E ctx s).1 = Result.returned EXCEPTION_CONTINUE_EXECUTION ∧
    (safepoint_trap E ctx s).2.1 = ctx ∧
    (safepoint_trap E ctx s).2.2.ptls = s.ptls ∧
    fatal_reports (safepoint_trap E ctx s).2.2.trace = fatal_reports s.trace := by
  unfold safepoint_trap
  by_cases ht : s.ptls.tid = 0
  · by_cases hd : s.ptls.defer_signal = 0
    · have hr : s.sigint_requested = false := by
        rcases h with h | h | h
        · exact absurd ht h
        · exact absurd hd h
        · exact h
      simp [emit, ht, hd, hr, jl_safepoint_consume_sigint, fatal_reports, List.countP_append]
    · simp [emit, ht, hd, jl_safepoint_defer_sigint, fatal_reports, List.countP_append]
  · simp [emit, ht, fatal_reports, List.countP_append]

theorem safepoint_trap_interrupt (E : Env) (ctx : CONTEXT) (s : State)
    (ht : s.ptls.tid = 0) (hd : s.ptls.defer_signal = 0) (hr : s.sigint_requested = true) :
    ∃ ctx1 s1, safepoint_trap E ctx s
        = (Result.returned EXCEPTION_CONTINUE_EXECUTION, ctx1, s1) ∧
      ctx1.Rip = E.jl_sig_throw ∧
      ctx1.Rsp = ((ctx.Rsp &&& (2 ^ 64 - 16)) + 2 ^ 64 - 8) % 2 ^ 64 ∧
      (s.ptls.safe_restore = 0 →
        s1.ptls.sig_exception = jl_value_t.jl_interrupt_exception) ∧
      fatal_reports s1.trace = fatal_reports s.trace := by
  obtain ⟨s0, hs0, hrep, hexc⟩ := record_exception_interrupt E ctx
    (emit Event.jl_clear_force_sigint (jl_safepoint_consume_sigint
      (emit Event.jl_set_gc_and_wait s)).2)
  obtain ⟨ctx1, s1, hthrow, hrip, hrsp, _, hptls, htrace, _⟩ :=
    jl_throw_in_ctx_spec E _ ctx _ s0 hs0
  refine ⟨ctx1, s1, ?_, hrip, hrsp, ?_, ?_⟩
  · unfold safepoint_trap
    simp only [emit, ht, hd, hr, jl_safepoint_consume_sigint, ne_eq, not_true_eq_false,
      if_false, if_true]
    simp only [emit, jl_safepoint_consume_sigint] at hthrow
    rw [hthrow]
  · intro h0
    rw [hptls]
    exact hexc h0
  · rw [htrace, hrep]
    simp [emit, jl_safepoint_consume_sigint, fatal_reports, List.countP_append]

/-- C10 (as amended): an access-violation fault (`ExceptionFlags == 0`) at a safepoint
address returns `EXCEPTION_CONTINUE_EXECUTION`. On a worker thread (`tid != 0`), on a
thread that defers signals, and whenever no interrupt is requested, the context record
(instruction and stack pointer) and the thread-local state (so the pending exception)
are left as they were. On the main thread, not deferring, with an interrupt requested,
the handler redirects the context to `jl_sig_throw` and, without a safe-restore marker,
makes the interrupt exception pending. -/
theorem safepoint_fault (E : Env) (er : EXCEPTION_RECORD) (ctx : CONTEXT) (s : State)
    (hf : er.ExceptionFlags = 0) (hc : er.ExceptionCode = EXCEPTION_ACCESS_VIOLATION)
    (hsp : E.jl_addr_is_safepoint (er.ExceptionInformation 1) = true) :
    (jl_exception_handler E er ctx s).1 = Result.returned EXCEPTION_CONTINUE_EXECUTION ∧
    (s.ptls.tid ≠ 0 ∨ s.ptls.defer_signal ≠ 0 ∨ s.sigint_requested = false →
      (jl_exception_handler E er ctx s).2.1 = ctx ∧
      (jl_exception_handler E er ctx s).2.2.ptls = s.ptls) ∧
    (s.ptls.tid = 0 → s.ptls.defer_signal = 0 → s.sigint_requested = true →
      (jl_exception_handler E er ctx s).2.1.Rip = E.jl_sig_throw ∧
      (jl_exception_handler E er ctx s).2.1.Rsp
        = ((ctx.Rsp &&& (2 ^ 64 - 16)) + 2 ^ 64 - 8) % 2 ^ 64 ∧
      (s.ptls.safe_restore = 0 →
        (jl_exception_handler E er ctx s).2.2.ptls.sig_exception
          = jl_value_t.jl_interrupt_exception)) := by
  have hh : jl_exception_handler E er ctx s = safepoint_trap E ctx s := by
    rw [handler_access_violation E er ctx s hf hc, if_pos hsp]
  rw [hh]
  have hret : (safepoint_trap E ctx s).1 = Result.returned EXCEPTION_CONTINUE_EXECUTION := by
    by_cases hq : s.ptls.tid ≠ 0 ∨ s.ptls.defer_signal ≠ 0 ∨ s.sigint_requested = false
    · exact (safepoint_trap_quiet E ctx s hq).1
    · have ht : s.ptls.tid = 0 := by
        by_contra h; exact hq (Or.inl h)
      have hd : s.ptls.defer_signal = 0 := by
        by_contra h; exact hq (Or.inr (Or.inl h))
      have hr : s.sigint_requested = true := by
        cases hb : s.sigint_requested with
        | false => exact absurd (Or.inr (Or.inr hb)) hq
        | true => rfl
      obtain ⟨ctx1, s1, he, _⟩ := safepoint_trap_interrupt E ctx s ht hd hr
      rw [he]
  refine ⟨hret, ?_, ?_⟩
  · intro hq
    exact ⟨(safepoint_trap_quiet E ctx s hq).2.1, (safepoint_trap_quiet E ctx s hq).2.2.1⟩
  · intro ht hd hr
    obtain ⟨ctx1, s1, he, hrip, hrsp, hexc, _⟩ := safepoint_trap_interrupt E ctx s ht hd hr
    rw [he]
    exact ⟨hrip, hrsp, hexc⟩

/-- C10, witness: the safepoint fault in the sample state on the main thread with no
interrupt requested. -/
theorem safepoint_fault_witness :
    (jl_exception_handler env_shallow fault_safepoint ctx_sample state_sample).1
      = Result.returned EXCEPTION_CONTINUE_EXECUTION ∧
    (jl_exception_handler env_shallow fault_safepoint ctx_sample state_sample).2.1
      = ctx_sample ∧
    (jl_exception_handler env_shallow fault_safepoint ctx_sample state_sample).2.2.ptls
      = state_sample.ptls :=
  ⟨(safepoint_fault env_shallow fault_safepoint ctx_sample state_sample rfl rfl rfl).1,
   (safepoint_fault env_shallow fault_safepoint ctx_sample state_sample rfl rfl rfl).2.1
     (Or.inr (Or.inr rfl))⟩

/-- C10, counterexample: a safepoint fault on the main thread (`tid == 0`), not deferring
signals, with an interrupt requested. The handler returns to a context whose instruction
pointer and stack pointer differ from the faulting ones, with the interrupt exception
pending. -/
theorem safepoint_fault_delivers_interrupt :
    fault_safepoint.ExceptionFlags = 0 ∧
    fault_safepoint.ExceptionCode = EXCEPTION_ACCESS_VIOLATION ∧
    env_shallow.jl_addr_is_safepoint (fault_safepoint.ExceptionInformation 1) = true ∧
    (jl_exception_handler env_shallow fault_safepoint ctx_sample state_sigint).2.1.Rip
      ≠ ctx_sample.Rip ∧
    (jl_exception_handler env_shallow fault_safepoint ctx_sample state_sigint).2.1.Rsp
      ≠ ctx_sample.Rsp ∧
    (jl_exception_handler env_shallow fault_safepoint ctx_sample
      state_sigint).2.2.ptls.sig_exception = jl_value_t.jl_interrupt_exception ∧
    state_sigint.ptls.sig_exception = jl_value_t.NULL := by
  have hh : jl_exception_handler env_shallow fault_safepoint ctx_sample state_sigint
      = safepoint_trap env_shallow ctx_sample state_sigint := by
    have hsp : env_shallow.jl_addr_is_safepoint (fault_safepoint.ExceptionInformation 1)
        = true := rfl
    rw [handler_access_violation _ _ _ _ rfl rfl, if_pos hsp]
  obtain ⟨ctx1, s1, he, hrip, hrsp, hexc, _⟩ :=
    safepoint_trap_interrupt env_shallow ctx_sample state_sigint rfl rfl rfl
  rw [hh, he]
  refine ⟨rfl, rfl, rfl, ?_, ?_, hexc rfl, rfl⟩
  · show ctx1.Rip ≠ _
    rw [hrip]; decide
  · show ctx1.Rsp ≠ _
    rw [hrsp]; decide

/-! ## C2: the dispatch table -/

theorem redirected_of_assert (E : Env) (excpt : jl_value_t) (ctx : CONTEXT) (s : State)
    (h : excpt ≠ jl_value_t.NULL ∨ s.ptls.safe_restore ≠ 0) :
    redirected E excpt ctx s (throw_and_continue E excpt ctx s) := by
  have hrec : ∃ s0, record_exception E excpt ctx s = some s0 ∧
      fatal_reports s0.trace = fatal_reports s.trace := by
    by_cases h0 : s.ptls.safe_restore = 0
    · rcases h with hne | hsr
      · obtain ⟨s0, hs0, _, _, _, hrep⟩ := record_exception_of_ne_null E excpt ctx s h0 hne
        exact ⟨s0, hs0, hrep⟩
      · exact absurd h0 hsr
    · exact ⟨s, record_exception_of_safe_restore E excpt ctx s h0, rfl⟩
  obtain ⟨s0, hs0, hrep⟩ := hrec
  obtain ⟨ctx1, s1, ht, hrip, _, _, _, htrace, _⟩ := jl_throw_in_ctx_spec E _ ctx _ s0 hs0
  exact ⟨ctx1, s1, ht, throw_and_continue_of_some E _ ctx _ _ _ ht, hrip, by rw [htrace, hrep]⟩

theorem fatal_exit_fatal_report (er : EXCEPTION_RECORD) (ctx : CONTEXT) (s : State) :
    fatal_exit ctx s (fatal_report er ctx s) :=
  ⟨(fatal_report_spec er ctx s).1, (fatal_report_spec er ctx s).2.1,
    (fatal_report_spec er ctx s).2.2.1⟩

theorem safepoint_trap_returns (E : Env) (ctx : CONTEXT) (s : State) :
    (safepoint_trap E ctx s).1 = Result.returned EXCEPTION_CONTINUE_EXECUTION ∧
    fatal_reports (safepoint_trap E ctx s).2.2.trace = fatal_reports s.trace := by
  by_cases hq : s.ptls.tid ≠ 0 ∨ s.ptls.defer_signal ≠ 0 ∨ s.sigint_requested = false
  · exact ⟨(safepoint_trap_quiet E ctx s hq).1, (safepoint_trap_quiet E ctx s hq).2.2.2⟩
  · have ht : s.ptls.tid = 0 := by
      by_contra h; exact hq (Or.inl h)
    have hd : s.ptls.defer_signal = 0 := by
      by_contra h; exact hq (Or.inr (Or.inl h))
    have hr : s.sigint_requested = true := by
      cases hb : s.sigint_requested with
      | false => exact absurd (Or.inr (Or.inr hb)) hq
      | true => rfl
    obtain ⟨ctx1, s1, he, _, _, _, hrep⟩ := safepoint_trap_interrupt E ctx s ht hd hr
    rw [he]
    exact ⟨rfl, hrep⟩

theorem continue_execution_ne_search :
    Result.returned EXCEPTION_CONTINUE_EXECUTION ≠ Result.returned EXCEPTION_CONTINUE_SEARCH := by
  decide

/-- C2: for an exception record with `ExceptionFlags == 0` the handler takes the outcome
the mapping gives: divide-by-zero redirects to the divide-error exception, stack overflow
to the stack-overflow exception; an access violation at a safepoint address runs the
safepoint trap, elsewhere it redirects with `NULL` when the safe-restore marker is set,
else to the read-only-memory exception when `ExceptionInformation[0] == 1`. Each of these
returns `EXCEPTION_CONTINUE_EXECUTION` without a fatal report. Every other access
violation and every other code writes exactly one fatal report and exits instead of
returning. `EXCEPTION_CONTINUE_SEARCH` is returned exactly when `ExceptionFlags != 0`. -/
theorem exception_dispatch (E : Env) (er : EXCEPTION_RECORD) (ctx : CONTEXT) (s : State) :
    (er.ExceptionFlags = 0 →
      (er.ExceptionCode = EXCEPTION_INT_DIVIDE_BY_ZERO →
        redirected E jl_value_t.jl_diverror_exception ctx (emit Event.fpreset s)
          (jl_exception_handler E er ctx s)) ∧
      (er.ExceptionCode = EXCEPTION_STACK_OVERFLOW →
        redirected E jl_value_t.jl_stackovf_exception ctx
          { s with ptls := { s.ptls with needs_resetstkoflw := 1 } }
          (jl_exception_handler E er ctx s)) ∧
      (er.ExceptionCode = EXCEPTION_ACCESS_VIOLATION →
        (E.jl_addr_is_safepoint (er.ExceptionInformation 1) = true →
          jl_exception_handler E er ctx s = safepoint_trap E ctx s ∧
          (jl_exception_handler E er ctx s).1
            = Result.returned EXCEPTION_CONTINUE_EXECUTION ∧
          fatal_reports (jl_exception_handler E er ctx s).2.2.trace
            = fatal_reports s.trace) ∧
        (E.jl_addr_is_safepoint (er.ExceptionInformation 1) = false →
          (s.ptls.safe_restore ≠ 0 →
            redirected E jl_value_t.NULL ctx s (jl_exception_handler E er ctx s)) ∧
          (s.ptls.safe_restore = 0 → er.ExceptionInformation 0 = 1 →
            redirected E jl_value_t.jl_readonlymemory_exception ctx s
              (jl_exception_handler E er ctx s)) ∧
          (s.ptls.safe_restore = 0 → er.ExceptionInformation 0 ≠ 1 →
            fatal_exit ctx s (jl_exception_handler E er ctx s)))) ∧
      (er.ExceptionCode ≠ EXCEPTION_INT_DIVIDE_BY_ZERO →
        er.ExceptionCode ≠ EXCEPTION_STACK_OVERFLOW →
        er.ExceptionCode ≠ EXCEPTION_ACCESS_VIOLATION →
        fatal_exit ctx s (jl_exception_handler E er ctx s))) ∧
    ((jl_exception_handler E er ctx s).1 = Result.returned EXCEPTION_CONTINUE_SEARCH ↔
      er.ExceptionFlags ≠ 0) := by
  have hmain : er.ExceptionFlags = 0 →
      (er.ExceptionCode = EXCEPTION_INT_DIVIDE_BY_ZERO →
        redirected E jl_value_t.jl_diverror_exception ctx (emit Event.fpreset s)
          (jl_exception_handler E er ctx s)) ∧
      (er.ExceptionCode = EXCEPTION_STACK_OVERFLOW →
        redirected E jl_value_t.jl_stackovf_exception ctx
          { s with ptls := { s.ptls with needs_resetstkoflw := 1 } }
          (jl_exception_handler E er ctx s)) ∧
      (er.ExceptionCode = EXCEPTION_ACCESS_VIOLATION →
        (E.jl_addr_is_safepoint (er.ExceptionInformation 1) = true →
          jl_exception_handler E er ctx s = safepoint_trap E ctx s ∧
          (jl_exception_handler E er ctx s).1
            = Result.returned EXCEPTION_CONTINUE_EXECUTION ∧
          fatal_reports (jl_exception_handler E er ctx s).2.2.trace
            = fatal_reports s.trace) ∧
        (E.jl_addr_is_safepoint (er.ExceptionInformation 1) = false →
          (s.ptls.safe_restore ≠ 0 →
            redirected E jl_value_t.NULL ctx s (jl_exception_handler E er ctx s)) ∧
          (s.ptls.safe_restore = 0 → er.ExceptionInformation 0 = 1 →
            redirected E jl_value_t.jl_readonlymemory_exception ctx s
              (jl_exception_handler E er ctx s)) ∧
          (s.ptls.safe_restore = 0 → er.ExceptionInformation 0 ≠ 1 →
            fatal_exit ctx s (jl_exception_handler E er ctx s)))) ∧
      (er.ExceptionCode ≠ EXCEPTION_INT_DIVIDE_BY_ZERO →
        er.ExceptionCode ≠ EXCEPTION_STACK_OVERFLOW →
        er.ExceptionCode ≠ EXCEPTION_ACCESS_VIOLATION →
        fatal_exit ctx s (jl_exception_handler E er ctx s)) := by
    intro hf
    refine ⟨?_, ?_, ?_, ?_⟩
    · intro hc
      rw [handler_divide E er ctx s hf hc]
      exact redirected_of_assert E _ ctx _ (Or.inl (by decide))
    · intro hc
      rw [handler_stack_overflow E er ctx s hf hc]
      exact redirected_of_assert E _ ctx _ (Or.inl (by decide))
    · intro hc
      refine ⟨?_, ?_⟩
      · intro hsp
        have hh : jl_exception_handler E er ctx s = safepoint_trap E ctx s := by
          rw [handler_access_violation E er ctx s hf hc, if_pos hsp]
        rw [hh]
        exact ⟨rfl, safepoint_trap_returns E ctx s⟩
      · intro hsp
        have hnsp : ¬ E.jl_addr_is_safepoint (er.ExceptionInformation 1) = true := by
          rw [hsp]; decide
        refine ⟨?_, ?_, ?_⟩
        · intro hsr
          rw [handler_access_violation E er ctx s hf hc, if_neg hnsp, if_pos hsr]
          exact redirected_of_assert E _ ctx _ (Or.inr hsr)
        · intro h0 hw
          have hnsr : ¬ s.ptls.safe_restore ≠ 0 := fun h => h h0
          rw [handler_access_violation E er ctx s hf hc, if_neg hnsp, if_neg hnsr, if_pos hw]
          exact redirected_of_assert E _ ctx _ (Or.inl (by decide))
        · intro h0 hw
          have hnsr : ¬ s.ptls.safe_restore ≠ 0 := fun h => h h0
          rw [handler_access_violation E er ctx s hf hc, if_neg hnsp, if_neg hnsr, if_neg hw]
          exact fatal_exit_fatal_report er ctx s
    · intro h1 h2 h3
      rw [handler_other_code E er ctx s hf h1 h2 h3]
      exact fatal_exit_fatal_report er ctx s
  refine ⟨hmain, ?_⟩
  constructor
  · intro hret hf
    obtain ⟨hdiv, hso, hav, hother⟩ := hmain hf
    have hred : ∀ x t, redirected E x ctx t (jl_exception_handler E er ctx s) → False := by
      rintro x t ⟨ctx1, s1, _, hr, _⟩
      rw [hr] at hret
      exact continue_execution_ne_search hret
    have hfat : fatal_exit ctx s (jl_exception_handler E er ctx s) → False := by
      rintro ⟨hr, _⟩
      rw [hr] at hret
      exact Result.noConfusion hret
    by_cases h1 : er.ExceptionCode = EXCEPTION_INT_DIVIDE_BY_ZERO
    · exact hred _ _ (hdiv h1)
    by_cases h2 : er.ExceptionCode = EXCEPTION_STACK_OVERFLOW
    · exact hred _ _ (hso h2)
    by_cases h3 : er.ExceptionCode = EXCEPTION_ACCESS_VIOLATION
    · obtain ⟨hsafe, hnot⟩ := hav h3
      cases hsp : E.jl_addr_is_safepoint (er.ExceptionInformation 1) with
      | true =>
        rw [(hsafe hsp).2.1] at hret
        exact continue_execution_ne_search hret
      | false =>
        obtain ⟨ha, hb, hc⟩ := hnot hsp
        by_cases h0 : s.ptls.safe_restore = 0
        · by_cases hw : er.ExceptionInformation 0 = 1
          · exact hred _ _ (hb h0 hw)
          · exact hfat (hc h0 hw)
        · exact hred _ _ (ha h0)
    · exact hfat (hother h1 h2 h3)
  · intro hf
    rw [handler_flags E er ctx s hf]

/-- C2, witness: an illegal-instruction fault in the sample state takes the fatal path
once. -/
theorem exception_dispatch_witness :
    fatal_exit ctx_sample state_sample
      (jl_exception_handler env_shallow fault_illegal_instruction ctx_sample state_sample) :=
  ((exception_dispatch env_shallow fault_illegal_instruction ctx_sample state_sample).1
    rfl).2.2.2 (by decide) (by decide) (by decide)

/-! ## C5 and C6: interrupt delivery -/

theorem record_exception_interrupt_frame (E : Env) (ctx : CONTEXT) (s : State) (h : Nat) :
    ∃ s0, record_exception E jl_value_t.jl_interrupt_exception ctx s = some s0 ∧
      s0.sigint_requested = s.sigint_requested ∧
      set_context_calls h s0.trace = set_context_calls h s.trace ∧
      resume_calls h s0.trace = resume_calls h s.trace ∧
      (s.ptls.safe_restore = 0 →
        s0.ptls.sig_exception = jl_value_t.jl_interrupt_exception) := by
  by_cases h0 : s.ptls.safe_restore = 0
  · refine ⟨_, by simp only [record_exception, h0]; rfl, ?_⟩
    simp [set_context_calls, resume_calls, List.countP_append]
  · exact ⟨s, record_exception_of_safe_restore E _ ctx s h0, rfl, rfl, rfl,
      fun h => absurd h h0⟩

theorem deliver_resume_spec (E : Env) (o : DeliverOutcomes) (m : MainThread) (s : State) :
    (deliver_resume E o m s).1 = Result.returned 0 ∧
    (deliver_resume E o m s).2.1.ctx = m.ctx ∧
    (deliver_resume E o m s).2.2.ptls = s.ptls ∧
    (deliver_resume E o m s).2.2.sigint_requested = s.sigint_requested ∧
    set_context_calls E.hMainThread (deliver_resume E o m s).2.2.trace
      = set_context_calls E.hMainThread s.trace ∧
    resume_calls E.hMainThread (deliver_resume E o m s).2.2.trace
      = resume_calls E.hMainThread s.trace + 1 ∧
    (o.ResumeThread_ok = true →
      (deliver_resume E o m s).2.1.suspend_count = m.suspend_count - 1) := by
  unfold deliver_resume
  cases hr : o.ResumeThread_ok <;>
    simp [emit, set_context_calls, resume_calls, List.countP_append]

theorem deliver_throw_spec (E : Env) (o : DeliverOutcomes) (m : MainThread) (s : State)
    (hg : o.GetThreadContext_ok = true) (hset : o.SetThreadContext_ok = true) :
    (deliver_throw E o m s).1 = Result.returned 0 ∧
    (deliver_throw E o m s).2.1.ctx.Rip = E.jl_sig_throw ∧
    (deliver_throw E o m s).2.1.ctx.Rsp
      = ((m.ctx.Rsp &&& (2 ^ 64 - 16)) + 2 ^ 64 - 8) % 2 ^ 64 ∧
    (s.ptls.safe_restore = 0 →
      (deliver_throw E o m s).2.2.ptls.sig_exception = jl_value_t.jl_interrupt_exception) ∧
    (deliver_throw E o m s).2.2.sigint_requested = false ∧
    set_context_calls E.hMainThread (deliver_throw E o m s).2.2.trace
      = set_context_calls E.hMainThread s.trace + 1 ∧
    resume_calls E.hMainThread (deliver_throw E o m s).2.2.trace
      = resume_calls E.hMainThread s.trace + 1 := by
  obtain ⟨s0, hs0, hreq, hsc, hrc, hexc⟩ := record_exception_interrupt_frame E
    { ContextFlags := CONTEXT_CONTROL ||| CONTEXT_INTEGER, Rsp := m.ctx.Rsp, Rip := m.ctx.Rip }
    (emit (Event.GetThreadContext E.hMainThread true) (emit Event.jl_clear_force_sigint
      (if o.force then emit (Event.jl_safe_printf Msg.force_throwing_sigint)
        (jl_safepoint_consume_sigint s).2 else (jl_safepoint_consume_sigint s).2)))
    E.hMainThread
  obtain ⟨ctx1, s1, hthrow, hrip, hrsp, _, hptls, htrace, hreq1, _⟩ :=
    jl_throw_in_ctx_spec E _ _ _ s0 hs0
  have he : deliver_throw E o m s = deliver_resume E o
      { m with ctx := { m.ctx with Rsp := ctx1.Rsp, Rip := ctx1.Rip } }
      (emit (Event.SetThreadContext E.hMainThread true) s1) := by
    unfold deliver_throw
    simp only [hg, hset, not_true_eq_false, if_false]
    rw [hthrow]
  obtain ⟨r1, r2, r3, r4, r5, r6, _⟩ := deliver_resume_spec E o
    { m with ctx := { m.ctx with Rsp := ctx1.Rsp, Rip := ctx1.Rip } }
    (emit (Event.SetThreadContext E.hMainThread true) s1)
  rw [he]
  refine ⟨r1, ?_, ?_, ?_, ?_, ?_, ?_⟩
  · rw [r2]; exact hrip
  · rw [r2]; exact hrsp
  · intro h0
    rw [r3]
    show s1.ptls.sig_exception = _
    rw [hptls]
    refine hexc ?_
    cases o.force <;> exact h0
  · rw [r4]
    show s1.sigint_requested = false
    rw [hreq1, hreq]
    cases o.force <;> rfl
  · rw [r5]
    show set_context_calls E.hMainThread (s1.trace ++ _) = _
    rw [htrace]
    simp only [set_context_calls, List.countP_append] at hsc ⊢
    rw [hsc]
    cases o.force <;>
      simp [emit, jl_safepoint_consume_sigint, List.countP_append]
  · rw [r6]
    show resume_calls E.hMainThread (s1.trace ++ _) + 1 = _
    rw [htrace]
    simp only [resume_calls, List.countP_append] at hrc ⊢
    rw [hrc]
    cases o.force <;>
      simp [emit, jl_safepoint_consume_sigint, List.countP_append]

theorem deliver_sigint_of_suspended (E : Env) (o : DeliverOutcomes) (m : MainThread)
    (s : State) (hs : o.SuspendThread_ok = true) :
    jl_try_deliver_sigint E o m s =
      if o.force ∨ (m.ptls2.defer_signal = 0 ∧ m.ptls2.io_wait ≠ 0) then
        deliver_throw E o { m with suspend_count := m.suspend_count + 1 }
          (emit Event.jl_unlock_profile (emit (Event.SuspendThread E.hMainThread true)
            (emit Event.jl_wake_libuv (jl_safepoint_enable_sigint
              (emit Event.jl_lock_profile s)))))
      else
        deliver_resume E o { m with suspend_count := m.suspend_count + 1 }
          (emit Event.jl_unlock_profile (emit (Event.SuspendThread E.hMainThread true)
            (emit Event.jl_wake_libuv (jl_safepoint_enable_sigint
              (emit Event.jl_lock_profile s))))) := by
  unfold jl_try_deliver_sigint
  simp only [hs, not_true_eq_false, if_false]

theorem deliver_prologue_counts (E : Env) (s : State) :
    set_context_calls E.hMainThread (emit Event.jl_unlock_profile
      (emit (Event.SuspendThread E.hMainThread true) (emit Event.jl_wake_libuv
        (jl_safepoint_enable_sigint (emit Event.jl_lock_profile s))))).trace
      = set_context_calls E.hMainThread s.trace ∧
    resume_calls E.hMainThread (emit Event.jl_unlock_profile
      (emit (Event.SuspendThread E.hMainThread true) (emit Event.jl_wake_libuv
        (jl_safepoint_enable_sigint (emit Event.jl_lock_profile s))))).trace
      = resume_calls E.hMainThread s.trace := by
  simp [emit, jl_safepoint_enable_sigint, set_context_calls, resume_calls,
    List.countP_append]

/-- C5 (as amended): when suspending the main thread and reading and writing its context
all succeed, `jl_try_deliver_sigint` redirects the main thread's context to the interrupt
exception (one successful `SetThreadContext`, instruction pointer at `jl_sig_throw`, the
request consumed) if and only if a force-escalation is pending or the main thread is both
not deferring signals and in an input/output wait (`io_wait`); otherwise the context is
left untouched, no `SetThreadContext` is made and the request stays pending. -/
theorem deliver_sigint_condition (E : Env) (o : DeliverOutcomes) (m : MainThread) (s : State)
    (hs : o.SuspendThread_ok = true) (hg : o.GetThreadContext_ok = true)
    (hset : o.SetThreadContext_ok = true) :
    (set_context_calls E.hMainThread (jl_try_deliver_sigint E o m s).2.2.trace
        = set_context_calls E.hMainThread s.trace + 1 ↔
      (o.force = true ∨ (m.ptls2.defer_signal = 0 ∧ m.ptls2.io_wait ≠ 0))) ∧
    ((o.force = true ∨ (m.ptls2.defer_signal = 0 ∧ m.ptls2.io_wait ≠ 0)) →
      (jl_try_deliver_sigint E o m s).2.1.ctx.Rip = E.jl_sig_throw ∧
      (jl_try_deliver_sigint E o m s).2.1.ctx.Rsp
        = ((m.ctx.Rsp &&& (2 ^ 64 - 16)) + 2 ^ 64 - 8) % 2 ^ 64 ∧
      (s.ptls.safe_restore = 0 →
        (jl_try_deliver_sigint E o m s).2.2.ptls.sig_exception
          = jl_value_t.jl_interrupt_exception) ∧
      (jl_try_deliver_sigint E o m s).2.2.sigint_requested = false) ∧
    (¬ (o.force = true ∨ (m.ptls2.defer_signal = 0 ∧ m.ptls2.io_wait ≠ 0)) →
      (jl_try_deliver_sigint E o m s).2.1.ctx = m.ctx ∧
      (jl_try_deliver_sigint E o m s).2.2.ptls = s.ptls ∧
      (jl_try_deliver_sigint E o m s).2.2.sigint_requested = true ∧
      set_context_calls E.hMainThread (jl_try_deliver_sigint E o m s).2.2.trace
        = set_context_calls E.hMainThread s.trace) := by
  have hpro := deliver_prologue_counts E s
  have hyes : (o.force = true ∨ (m.ptls2.defer_signal = 0 ∧ m.ptls2.io_wait ≠ 0)) →
      set_context_calls E.hMainThread (jl_try_deliver_sigint E o m s).2.2.trace
        = set_context_calls E.hMainThread s.trace + 1 ∧
      (jl_try_deliver_sigint E o m s).2.1.ctx.Rip = E.jl_sig_throw ∧
      (jl_try_deliver_sigint E o m s).2.1.ctx.Rsp
        = ((m.ctx.Rsp &&& (2 ^ 64 - 16)) + 2 ^ 64 - 8) % 2 ^ 64 ∧
      (s.ptls.safe_restore = 0 →
        (jl_try_deliver_sigint E o m s).2.2.ptls.sig_exception
          = jl_value_t.jl_interrupt_exception) ∧
      (jl_try_deliver_sigint E o m s).2.2.sigint_requested = false := by
    intro hc
    rw [deliver_sigint_of_suspended E o m s hs, if_pos hc]
    obtain ⟨_, t2, t3, t4, t5, t6, _⟩ := deliver_throw_spec E o
      { m with suspend_count := m.suspend_count + 1 }
      (emit Event.jl_unlock_profile (emit (Event.SuspendThread E.hMainThread true)
        (emit Event.jl_wake_libuv (jl_safepoint_enable_sigint
          (emit Event.jl_lock_profile s))))) hg hset
    exact ⟨by rw [t6, hpro.1], t2, t3, t4, t5⟩
  have hno : ¬ (o.force = true ∨ (m.ptls2.defer_signal = 0 ∧ m.ptls2.io_wait ≠ 0)) →
      (jl_try_deliver_sigint E o m s).2.1.ctx = m.ctx ∧
      (jl_try_deliver_sigint E o m s).2.2.ptls = s.ptls ∧
      (jl_try_deliver_sigint E o m s).2.2.sigint_requested = true ∧
      set_context_calls E.hMainThread (jl_try_deliver_sigint E o m s).2.2.trace
        = set_context_calls E.hMainThread s.trace := by
    intro hc
    rw [deliver_sigint_of_suspended E o m s hs, if_neg hc]
    obtain ⟨_, r2, r3, r4, r5, _⟩ := deliver_resume_spec E o
      { m with suspend_count := m.suspend_count + 1 }
      (emit Event.jl_unlock_profile (emit (Event.SuspendThread E.hMainThread true)
        (emit Event.jl_wake_libuv (jl_safepoint_enable_sigint
          (emit Event.jl_lock_profile s)))))
    exact ⟨r2, r3, r4, by rw [r5, hpro.1]⟩
  refine ⟨⟨?_, fun hc => (hyes hc).1⟩, fun hc => (hyes hc).2, hno⟩
  intro hcount
  by_contra hc
  rw [(hno hc).2.2.2] at hcount
  omega

/-- C5, witness: the main thread blocked in an input/output wait gets the interrupt. -/
theorem deliver_sigint_condition_witness :
    (jl_try_deliver_sigint env_shallow outcomes_all_ok main_thread_io_wait
      state_sample).2.1.ctx.Rip = env_shallow.jl_sig_throw ∧
    (jl_try_deliver_sigint env_shallow outcomes_all_ok main_thread_io_wait
      state_sample).2.2.sigint_requested = false :=
  ⟨((deliver_sigint_condition env_shallow outcomes_all_ok main_thread_io_wait state_sample
      rfl rfl rfl).2.1 (Or.inr ⟨rfl, by decide⟩)).1,
   ((deliver_sigint_condition env_shallow outcomes_all_ok main_thread_io_wait state_sample
      rfl rfl rfl).2.1 (Or.inr ⟨rfl, by decide⟩)).2.2.2⟩

/-- C5, counterexample: the main thread is not deferring signals, no force-escalation
is pending and every thread call succeeds, but the thread is not in an input/output
wait: the context is left untouched, no `SetThreadContext` is made and the request stays
pending. -/
theorem deliver_sigint_not_waiting :
    outcomes_all_ok.SuspendThread_ok = true ∧ outcomes_all_ok.GetThreadContext_ok = true ∧
    outcomes_all_ok.SetThreadContext_ok = true ∧
    ¬ (main_thread_sample.ptls2.defer_signal ≠ 0 ∧ outcomes_all_ok.force = false) ∧
    (jl_try_deliver_sigint env_shallow outcomes_all_ok main_thread_sample
      state_sample).2.1.ctx = main_thread_sample.ctx ∧
    set_context_calls env_shallow.hMainThread (jl_try_deliver_sigint env_shallow
      outcomes_all_ok main_thread_sample state_sample).2.2.trace = 0 ∧
    (jl_try_deliver_sigint env_shallow outcomes_all_ok main_thread_sample
      state_sample).2.2.sigint_requested = true := by
  decide

theorem deliver_throw_get_context_fails (E : Env) (o : DeliverOutcomes) (m : MainThread)
    (s : State) (hg : o.GetThreadContext_ok = false) :
    (deliver_throw E o m s).1 = Result.returned 0 ∧
    (deliver_throw E o m s).2.1 = m ∧
    resume_calls E.hMainThread (deliver_throw E o m s).2.2.trace
      = resume_calls E.hMainThread s.trace := by
  unfold deliver_throw
  cases hforce : o.force <;>
    simp [hg, emit, jl_safepoint_consume_sigint, resume_calls, List.countP_append]

theorem deliver_throw_set_context_fails (E : Env) (o : DeliverOutcomes) (m : MainThread)
    (s : State) (hg : o.GetThreadContext_ok = true) (hset : o.SetThreadContext_ok = false) :
    (deliver_throw E o m s).1 = Result.returned 0 ∧
    (deliver_throw E o m s).2.1 = m ∧
    resume_calls E.hMainThread (deliver_throw E o m s).2.2.trace
      = resume_calls E.hMainThread s.trace := by
  obtain ⟨s0, hs0, _, _, hrc, _⟩ := record_exception_interrupt_frame E
    { ContextFlags := CONTEXT_CONTROL ||| CONTEXT_INTEGER, Rsp := m.ctx.Rsp, Rip := m.ctx.Rip }
    (emit (Event.GetThreadContext E.hMainThread true) (emit Event.jl_clear_force_sigint
      (if o.force then emit (Event.jl_safe_printf Msg.force_throwing_sigint)
        (jl_safepoint_consume_sigint s).2 else (jl_safepoint_consume_sigint s).2)))
    E.hMainThread
  obtain ⟨ctx1, s1, hthrow, _, _, _, _, htrace, _⟩ := jl_throw_in_ctx_spec E _ _ _ s0 hs0
  have he : deliver_throw E o m s = (Result.returned 0, m,
      emit (Event.jl_safe_printf Msg.set_context_failed)
        (emit (Event.SetThreadContext E.hMainThread false) s1)) := by
    unfold deliver_throw
    simp only [hg, hset, not_true_eq_false, if_false]
    rw [hthrow]
    simp
  rw [he]
  refine ⟨rfl, rfl, ?_⟩
  show resume_calls E.hMainThread (s1.trace ++ _ ++ _) = _
  rw [htrace]
  simp only [resume_calls, List.countP_append] at hrc ⊢
  rw [hrc]
  cases o.force <;>
    simp [emit, jl_safepoint_consume_sigint, List.countP_append]

/-- C6: the runs of `jl_try_deliver_sigint` the claim is about and the code gets wrong.
`SuspendThread(hMainThread)` succeeds, the delivery is forced, and `GetThreadContext`
(first part) or `SetThreadContext` (second part) fails: the function returns without
any call of `ResumeThread(hMainThread)`, and the main thread's suspend count stays one
above what it was. -/
theorem deliver_sigint_leaves_thread_suspended (E : Env) (m : MainThread) (s : State) :
    ((jl_try_deliver_sigint E outcomes_get_context_fails m s).1 = Result.returned 0 ∧
      resume_calls E.hMainThread
        (jl_try_deliver_sigint E outcomes_get_context_fails m s).2.2.trace
        = resume_calls E.hMainThread s.trace ∧
      (jl_try_deliver_sigint E outcomes_get_context_fails m s).2.1.suspend_count
        = m.suspend_count + 1) ∧
    ((jl_try_deliver_sigint E outcomes_set_context_fails m s).1 = Result.returned 0 ∧
      resume_calls E.hMainThread
        (jl_try_deliver_sigint E outcomes_set_context_fails m s).2.2.trace
        = resume_calls E.hMainThread s.trace ∧
      (jl_try_deliver_sigint E outcomes_set_context_fails m s).2.1.suspend_count
        = m.suspend_count + 1) := by
  have hpro := deliver_prologue_counts E s
  constructor
  · have hc : outcomes_get_context_fails.force = true ∨
        (m.ptls2.defer_signal = 0 ∧ m.ptls2.io_wait ≠ 0) := Or.inl rfl
    rw [deliver_sigint_of_suspended E outcomes_get_context_fails m s rfl, if_pos hc]
    obtain ⟨g1, g2, g3⟩ := deliver_throw_get_context_fails E outcomes_get_context_fails
      { m with suspend_count := m.suspend_count + 1 }
      (emit Event.jl_unlock_profile (emit (Event.SuspendThread E.hMainThread true)
        (emit Event.jl_wake_libuv (jl_safepoint_enable_sigint
          (emit Event.jl_lock_profile s))))) rfl
    exact ⟨g1, by rw [g3, hpro.2], by rw [g2]⟩
  · have hc : outcomes_set_context_fails.force = true ∨
        (m.ptls2.defer_signal = 0 ∧ m.ptls2.io_wait ≠ 0) := Or.inl rfl
    rw [deliver_sigint_of_suspended E outcomes_set_context_fails m s rfl, if_pos hc]
    obtain ⟨g1, g2, g3⟩ := deliver_throw_set_context_fails E outcomes_set_context_fails
      { m with suspend_count := m.suspend_count + 1 }
      (emit Event.jl_unlock_profile (emit (Event.SuspendThread E.hMainThread true)
        (emit Event.jl_wake_libuv (jl_safepoint_enable_sigint
          (emit Event.jl_lock_profile s))))) rfl rfl
    exact ⟨g1, by rw [g3, hpro.2], by rw [g2]⟩

/-! ## C8: the status code of `jl_profile_start_timer` -/

/-- C8 (as amended): `jl_profile_start_timer` returns 0 exactly when it succeeds and a
negative status otherwise: -2 when `timeGetDevCaps` fails, -1 when `CreateThread` returns
`NULL`, and again -2 when `ResumeThread` on the existing profiler thread fails; the two
causes with status -2 are not told apart. On each failure the flag `running` is left
unchanged, on success it is 1. -/
theorem start_timer_status (o : StartOutcomes) (p : ProfilerState) :
    (p.hBtThread = 0 → o.timeGetDevCaps = none →
      (jl_profile_start_timer o p).1 = -2 ∧
      (jl_profile_start_timer o p).2.running = p.running) ∧
    (p.hBtThread = 0 → o.timeGetDevCaps ≠ none → o.CreateThread = 0 →
      (jl_profile_start_timer o p).1 = -1 ∧
      (jl_profile_start_timer o p).2.running = p.running) ∧
    (p.hBtThread ≠ 0 → o.ResumeThread_ok = false →
      (jl_profile_start_timer o p).1 = -2 ∧
      (jl_profile_start_timer o p).2.running = p.running) ∧
    (p.hBtThread = 0 → o.timeGetDevCaps ≠ none → o.CreateThread ≠ 0 →
      (jl_profile_start_timer o p).1 = 0 ∧ (jl_profile_start_timer o p).2.running = 1) ∧
    (p.hBtThread ≠ 0 → o.ResumeThread_ok = true →
      (jl_profile_start_timer o p).1 = 0 ∧ (jl_profile_start_timer o p).2.running = 1) ∧
    ((jl_profile_start_timer o p).1 = 0 ∨ (jl_profile_start_timer o p).1 < 0) := by
  unfold jl_profile_start_timer start_timer_tail
  by_cases hh : p.hBtThread = 0
  · cases hcaps : o.timeGetDevCaps with
    | none => simp [hh, plog]
    | some w =>
      by_cases hc : o.CreateThread = 0
      · simp [hh, hc, plog]
      · by_cases hr : p.running = 0 <;>
          cases hb : timeBeginPeriod w o.timeBeginPeriod_ok <;>
          simp [hh, hc, hr, hb, plog]
  · cases hres : o.ResumeThread_ok with
    | false => simp [hh, plog]
    | true =>
      by_cases hr : p.running = 0 <;>
        cases hb : timeBeginPeriod p.timecaps_wPeriodMin o.timeBeginPeriod_ok <;>
        simp [hh, hr, hb, plog]

/-- C8, witness: a first start in which `CreateThread` fails. -/
theorem start_timer_status_witness :
    (jl_profile_start_timer start_create_fail (profiler_init 1000000 40)).1 = -1 ∧
    (jl_profile_start_timer start_create_fail (profiler_init 1000000 40)).2.running
      = (profiler_init 1000000 40).running :=
  (start_timer_status start_create_fail (profiler_init 1000000 40)).2.1 rfl (by decide) rfl

/-- C8, counterexample: "could not query timer resolution" (first start, `timeGetDevCaps`
fails) and "could not resume thread" (later start, `ResumeThread` fails) give the same
status -2, so the three failure values are not pairwise different. -/
theorem start_timer_status_shared :
    (profiler_init 1000000 40).hBtThread = 0 ∧ start_caps_fail.timeGetDevCaps = none ∧
    profiler_with_thread.hBtThread ≠ 0 ∧ start_resume_fail.ResumeThread_ok = false ∧
    (jl_profile_start_timer start_caps_fail (profiler_init 1000000 40)).1 = -2 ∧
    (jl_profile_start_timer start_resume_fail profiler_with_thread).1 = -2 ∧
    ¬ ((jl_profile_start_timer start_caps_fail (profiler_init 1000000 40)).1
        ≠ (jl_profile_start_timer start_resume_fail profiler_with_thread).1) := by
  decide

/-! ## C7: pairing of the timer resolution request and its release -/

theorem record_sample_cursor (E : Env) (ctx : CONTEXT) (ptls : jl_tls_states_t)
    (cycleclock : Nat) (p : ProfilerState) (n : Nat)
    (hn : (E.rec_backtrace_ctx
      ((p.bt_size_max + 2 ^ 64 - p.bt_size_cur % 2 ^ 64 + 2 ^ 64 - 1) % 2 ^ 64) ctx 0).length
      = n)
    (hfit : p.bt_size_cur + n + 6 < 2 ^ 64) :
    (record_sample E ctx ptls cycleclock p).bt_size_cur = p.bt_size_cur + n + 6 ∧
    (p.bt_size_cur + n + 5, 0) ∈ (record_sample E ctx ptls cycleclock p).bt_data_prof_stores
    := by
  unfold record_sample
  simp only [push_prof, plog, hn]
  have e0 : (p.bt_size_cur + n) % 2 ^ 64 = p.bt_size_cur + n := Nat.mod_eq_of_lt (by omega)
  have e1 : (p.bt_size_cur + n + 1) % 2 ^ 64 = p.bt_size_cur + n + 1 :=
    Nat.mod_eq_of_lt (by omega)
  have e2 : (p.bt_size_cur + n + 1 + 1) % 2 ^ 64 = p.bt_size_cur + n + 2 :=
    Nat.mod_eq_of_lt (by omega)
  have e3 : (p.bt_size_cur + n + 2 + 1) % 2 ^ 64 = p.bt_size_cur + n + 3 :=
    Nat.mod_eq_of_lt (by omega)
  have e4 : (p.bt_size_cur + n + 3 + 1) % 2 ^ 64 = p.bt_size_cur + n + 4 :=
    Nat.mod_eq_of_lt (by omega)
  have e5 : (p.bt_size_cur + n + 4 + 1) % 2 ^ 64 = p.bt_size_cur + n + 5 :=
    Nat.mod_eq_of_lt (by omega)
  have e6 : (p.bt_size_cur + n + 5 + 1) % 2 ^ 64 = p.bt_size_cur + n + 6 :=
    Nat.mod_eq_of_lt (by omega)
  rw [e0, e1, e2, e3, e4, e5, e6]
  exact ⟨rfl, by simp⟩

/-- C4: a sampling step the claim covers and the code gets wrong. The buffer has
capacity 40 and is empty, `jl_profile_is_buffer_full()` is false, every thread call
succeeds, and the recorder, given room for `40 - 0 - 1 = 39` entries, records 39 frames.
The step then stores the four metadata words and the two zeros at the indices 39 to 44,
five of them at or beyond the capacity (the task word at 40, the last zero at 44), and
leaves `bt_size_cur = 45 > bt_size_max`. -/
theorem profile_sample_overruns_buffer :
    profiler_running.running ≠ 0 ∧
    sample_inputs_ok.jl_profile_is_buffer_full = false ∧
    profiler_running.bt_size_cur ≤ profiler_running.bt_size_max ∧
    profiler_running.bt_size_max = 40 ∧
    (env_deep.rec_backtrace_ctx (profiler_running.bt_size_max - profiler_running.bt_size_cur - 1)
      ctx_sample 0).length
      ≤ profiler_running.bt_size_max - profiler_running.bt_size_cur - 1 ∧
    (profile_bt_iteration env_deep sample_inputs_ok profiler_running).1 = LoopStep.next ∧
    (profile_bt_iteration env_deep sample_inputs_ok profiler_running).2.bt_size_cur = 45 ∧
    (44, 0) ∈
      (profile_bt_iteration env_deep sample_inputs_ok profiler_running).2.bt_data_prof_stores ∧
    (40, 0x5000) ∈
      (profile_bt_iteration env_deep sample_inputs_ok profiler_running).2.bt_data_prof_stores
    := by
  decide

end SignalsWin
